import Mathlib

/-!
# Verification of the ce5d8cdd crawler against its specification

This file gives a shallow embedding, in Lean 4, of the core logic of
`crawl_ce5d8cdd.py` and `site_ce5d8cdd.py` (a novel-site crawler), and proves
or refutes the specified properties about it.

Modelling conventions:

* Pure Python string manipulation (regex substitutions, splitting, stripping)
  is translated to executable Lean functions over `List Char` / `String`.
  Python `re` scanning semantics (leftmost match, greedy quantifiers with the
  backtracking actually reachable for the concrete patterns in the source) are
  reproduced by hand-written scanners; scanners that restart mid-string use a
  fuel argument initialised to more than the input length, so they are total
  and never exhaust fuel on the inputs they receive.
* External collaborators that are not part of this repository are modelled by
  parameters or by small models of their documented contracts:
  - `parsel` CSS/XPath queries: a page is a record of the query results the
    source reads (one field per selector);
  - `hashlib.md5`: the integer value of the first ten hex digits of the digest
    is an explicit function parameter `md5hex10 : String → Nat`;
  - `urllib.parse.urljoin` / `urlparse`: small models of the documented
    behaviour.  `urljoin` is modelled twice: a total function `urljoin`
    for the value it returns when it succeeds, and a fallible `urljoinE`
    that also models the `ValueError("Invalid IPv6 URL")` the library
    raises on a bracket-malformed netloc — the error path `parse_toc` and
    `parse_book_meta` leave unguarded;
  - `crawl.common` category helpers (`map_category_name`,
    `match_category_by_keywords`, `get_default_category_id`): a `CatCfg`
    record of functions;
  - fetching (`fetch_text`): an attempt is an `Option String`, `none` meaning
    the call raised, `some body` meaning it returned `body`;
  - the wall clock (`datetime.utcnow`): a `now : String` parameter.
* Thread-pool completion order (`as_completed`) is immaterial to the
  properties proved here (membership and size of the failure queue), so the
  per-round re-attempt is modelled as an order-preserving filter.
-/

/-! ## Generic character and list helpers -/

/-- Python `\s` / `str.isspace` membership, restricted to the whitespace
characters that can actually appear in this pipeline (ASCII whitespace plus
NBSP and the ideographic space). -/
def pyIsSpace (c : Char) : Bool :=
  c == ' ' || c == '\t' || c == '\n' || c == '\r' ||
  c == '\u000B' || c == '\u000C' || c == ' ' || c == '　'

/-- Strip `pyIsSpace` characters from both ends (Python `str.strip()`). -/
def pyStripList (l : List Char) : List Char :=
  ((l.dropWhile pyIsSpace).reverse.dropWhile pyIsSpace).reverse

/-- Python `str.strip()` on a `String`. -/
def pyStrip (s : String) : String := String.mk (pyStripList s.toList)

/-- Boolean list-prefix test. -/
def isPrefixOfB : List Char → List Char → Bool
  | [], _ => true
  | _ :: _, [] => false
  | a :: as, b :: bs => a == b && isPrefixOfB as bs

/-- Case-insensitive boolean list-prefix test (Python `re.I`; `Char.toLower`
covers the ASCII letters that occur in the patterns of the source). -/
def isPrefixOfCI (pat l : List Char) : Bool :=
  isPrefixOfB (pat.map Char.toLower) (l.map Char.toLower)

/-- Boolean substring test: does `pat` occur inside `l`? -/
def containsListB (pat : List Char) : List Char → Bool
  | [] => isPrefixOfB pat []
  | c :: rest => isPrefixOfB pat (c :: rest) || containsListB pat rest

/-- `pat` occurs in `s` (Python `pat in s`). -/
def containsStrB (s pat : String) : Bool := containsListB pat.toList s.toList

/-- Case-insensitive substring test. -/
def containsCI (l pat : List Char) : Bool :=
  containsListB (pat.map Char.toLower) (l.map Char.toLower)

/-- Case-insensitive list equality. -/
def eqCI (a b : List Char) : Bool := a.map Char.toLower == b.map Char.toLower

/-- Index of the first occurrence of `pat` in the list, if any. -/
def findSubAux (pat : List Char) : List Char → Nat → Option Nat
  | [], i => if isPrefixOfB pat [] then some i else none
  | c :: rest, i =>
    if isPrefixOfB pat (c :: rest) then some i else findSubAux pat rest (i + 1)

/-- `re.search` with a boolean matcher `tryP` that tests for a match starting
at the head of its argument: succeeds if a match starts at any position. -/
def searchB (tryP : List Char → Bool) : List Char → Bool
  | [] => tryP []
  | c :: rest => tryP (c :: rest) || searchB tryP rest

/-- `re.search` with a capturing matcher: the leftmost position at which
`tryP` yields a value wins. -/
def searchOpt {α : Type} (tryP : List Char → Option α) : List Char → Option α
  | [] => tryP []
  | c :: rest =>
    match tryP (c :: rest) with
    | some v => some v
    | none => searchOpt tryP rest

/-- Consume a literal, returning the rest on success. -/
def lit (pat l : List Char) : Option (List Char) :=
  if isPrefixOfB pat l then some (l.drop pat.length) else none

/-- Consume `\d+` (ASCII digits, as in the URLs this crawler sees),
returning the rest. -/
def digits1 (l : List Char) : Option (List Char) :=
  let ds := l.takeWhile Char.isDigit
  if ds.isEmpty then none else some (l.drop ds.length)

/-- Numeric value of a digit run (Python `int` on a decimal string). -/
def digitsVal (l : List Char) : Nat :=
  l.foldl (fun a c => a * 10 + (c.toNat - 48)) 0

/-- Consume `\d+` and also return its value. -/
def digits1Val (l : List Char) : Option (Nat × List Char) :=
  let ds := l.takeWhile Char.isDigit
  if ds.isEmpty then none else some (digitsVal ds, l.drop ds.length)

/-- First nonempty string of a list, else `""` (Python `a or b or ...` on
strings). -/
def firstTruthyStr (l : List String) : String :=
  ((l.find? (fun s => s != "")).getD "")

/-- `none` for a missing or empty optional string (Python truthiness of an
optional query result). -/
def truthyOpt (o : Option String) : Option String :=
  match o with
  | some h => if h = "" then none else some h
  | none => none

/-- First truthy entry of a list of optional strings. -/
def firstTruthyOpt (l : List (Option String)) : Option String :=
  l.findSome? truthyOpt

/-- Python `s.startswith(pat)`. -/
def startsWithStr (s pat : String) : Bool := isPrefixOfB pat.toList s.toList

/-! ## Model of `urllib.parse` (external library)

Modelled from the documented contract of `urllib.parse.urljoin` and
`urlparse` for the absolute-or-relative http URLs this crawler handles.
The total function `urljoin` gives the value of a successful join; the
library's raising behaviour (`urlsplit` raises
`ValueError("Invalid IPv6 URL")` when a netloc contains an unmatched
square bracket) is modelled separately by `urljoinE` below. -/

/-- `urlparse(u).netloc`. -/
def urlNetloc (u : String) : String :=
  match findSubAux "://".toList u.toList 0 with
  | some i =>
    String.mk ((u.toList.drop (i + 3)).takeWhile
      (fun c => !(c == '/' || c == '?' || c == '#')))
  | none =>
    if isPrefixOfB "//".toList u.toList then
      String.mk ((u.toList.drop 2).takeWhile
        (fun c => !(c == '/' || c == '?' || c == '#')))
    else ""

/-- `urlparse(u).path`. -/
def urlPath (u : String) : String :=
  let rest : List Char :=
    match findSubAux "://".toList u.toList 0 with
    | some i =>
      (u.toList.drop (i + 3)).dropWhile
        (fun c => !(c == '/' || c == '?' || c == '#'))
    | none =>
      if isPrefixOfB "//".toList u.toList then
        (u.toList.drop 2).dropWhile
          (fun c => !(c == '/' || c == '?' || c == '#'))
      else u.toList
  String.mk (rest.takeWhile (fun c => !(c == '?' || c == '#')))

/-- Scheme part (`https:`) of a base URL, for protocol-relative joins. -/
def urlSchemePart (base : String) : String :=
  match findSubAux "://".toList base.toList 0 with
  | some i => String.mk (base.toList.take (i + 1))
  | none => ""

/-- Origin part (`https://host`) of a base URL. -/
def urlOriginPart (base : String) : String :=
  match findSubAux "://".toList base.toList 0 with
  | some i =>
    String.mk (base.toList.take (i + 3) ++
      ((base.toList.drop (i + 3)).takeWhile (fun c => c != '/')))
  | none => ""

/-- Directory part of a base URL: everything up to and including the final
slash. -/
def urlDirPart (base : String) : String :=
  match findSubAux "/".toList base.toList.reverse 0 with
  | some i => String.mk ((base.toList.reverse.drop i).reverse)
  | none => ""

/-- `urllib.parse.urljoin(base, rel)` (model). -/
def urljoin (base rel : String) : String :=
  if rel = "" then base
  else if (findSubAux "://".toList rel.toList 0).isSome then rel
  else if isPrefixOfB "//".toList rel.toList then urlSchemePart base ++ rel
  else if isPrefixOfB "/".toList rel.toList then urlOriginPart base ++ rel
  else urlDirPart base ++ rel

/-! ## Fetch resilience layer (`crawl_ce5d8cdd._looks_like_error_page`,
`_fetch_with_retry`)

A fetch attempt is an `Option String`: `none` models `fetch_text` raising,
`some body` a decoded body.  Sleeping and user-agent rotation between
attempts do not affect the returned value and are not modelled. -/

/-- The fixed marker alternation of `_looks_like_error_page` (source line
194), lowercased where ASCII because the regex carries `re.I`. -/
def errorMarkers : List String :=
  ["出现错误", "出错", "错误", "访问过于频繁", "频繁", "验证", "安全",
   "禁止访问", "access denied", "just a moment"]

/-- `_looks_like_error_page(html)`: empty, or contains any marker phrase. -/
def _looks_like_error_page (html : String) : Bool :=
  if html = "" then true
  else errorMarkers.any
    (fun m => containsListB m.toList (html.toList.map Char.toLower))

/-- The acceptance test of the retry loop: `html and not
_looks_like_error_page(html)`. -/
def goodBody (h : String) : Bool := h != "" && !_looks_like_error_page h

/-- The loop body of `_fetch_with_retry`, with the running `last_html`
accumulator: a raised attempt leaves `last_html` unchanged, a successful
fetch overwrites it, and a good body is returned immediately. -/
def fetchRetryGo : List (Option String) → String → String
  | [], last => last
  | a :: rest, last =>
    let html := a.getD ""
    let last1 := match a with | some h => h | none => last
    if goodBody html then html else fetchRetryGo rest last1

/-- `_fetch_with_retry(s, url, tries, ...)` where `attempts` lists the
outcome of each of the `tries` attempts in order.  Total by construction:
the Python function never raises. -/
def _fetch_with_retry (attempts : List (Option String)) : String :=
  fetchRetryGo attempts ""

/-! ## Category-root normalisation (`crawl_ce5d8cdd._category_root`) -/

/-- Drop trailing `/` characters (Python `u.rstrip('/')`). -/
def rstripSlashList (l : List Char) : List Char :=
  (l.reverse.dropWhile (fun c => c == '/')).reverse

/-- Does the whole list match `/index_\d+\.html` (case-insensitively, to the
end)?  This is the `$`-anchored pattern of the first substitution. -/
def isIndexTail (l : List Char) : Bool :=
  isPrefixOfCI "/index_".toList l &&
    (let r := l.drop 7
     let ds := r.takeWhile Char.isDigit
     !ds.isEmpty && eqCI (r.drop ds.length) ".html".toList)

/-- `\d+(?:\.html)?$`: a digit run then nothing or `.html`. -/
def digitsThenOptHtml (l : List Char) : Bool :=
  let ds := l.takeWhile Char.isDigit
  !ds.isEmpty && (l.drop ds.length == [] || eqCI (l.drop ds.length) ".html".toList)

/-- Does the whole list match `/(?:page/)?\d+(?:\.html)?` to the end? -/
def isNumTail (l : List Char) : Bool :=
  match l with
  | '/' :: rest =>
    (isPrefixOfCI "page/".toList rest && digitsThenOptHtml (rest.drop 5)) ||
      digitsThenOptHtml rest
  | _ => false

/-- `re.sub` of a `$`-anchored pattern: remove from the leftmost position
whose whole tail matches `test` (at most one such removal is possible). -/
def stripTail (test : List Char → Bool) : List Char → List Char
  | [] => []
  | c :: rest => if test (c :: rest) then [] else c :: stripTail test rest

/-- Is there a position whose tail matches `test`? -/
def hasTailMatch (test : List Char → Bool) : List Char → Bool
  | [] => test []
  | c :: rest => test (c :: rest) || hasTailMatch test rest

/-- `_category_root(cat_url)` (source lines 146-155): rstrip `/`, drop a
trailing `/index_{n}.html`, then drop a trailing `/{n}`, `/{n}.html` or
`/page/{n}`. -/
def _category_root (cat_url : String) : String :=
  String.mk (stripTail isNumTail (stripTail isIndexTail
    (rstripSlashList cat_url.toList)))

/-! ## Pagination resolver (`crawl_ce5d8cdd._find_next_page`)

The five CSS/XPath queries the function issues are external `parsel` calls;
a page is the record of their results (in source order). -/

structure PaginationPage where
  /-- `ul.pagination#pagelink a.next::attr(href)` -/
  nextInPagelink : Option String := none
  /-- `a[rel="next"]::attr(href)` -/
  relNext : Option String := none
  /-- `ul.pagination#pagelink li.active + li a::attr(href)` -/
  afterActive : Option String := none
  /-- pagination list with `id=pagelink`, anchor whose normalised text is `>` -/
  gtInPagelink : Option String := none
  /-- any pagination list, anchor whose normalised text is `>` -/
  gtAnyPagination : Option String := none

/-- `_find_next_page(html, page_url)` (source lines 114-144): the first
query returning a truthy href wins; its stripped value is resolved against
the page URL. -/
def _find_next_page (p : PaginationPage) (page_url : String) : Option String :=
  match truthyOpt p.nextInPagelink with
  | some h => some (urljoin page_url (pyStrip h))
  | none =>
    match truthyOpt p.relNext with
    | some h => some (urljoin page_url (pyStrip h))
    | none =>
      match truthyOpt p.afterActive with
      | some h => some (urljoin page_url (pyStrip h))
      | none =>
        match truthyOpt p.gtInPagelink with
        | some h => some (urljoin page_url (pyStrip h))
        | none =>
          match truthyOpt p.gtAnyPagination with
          | some h => some (urljoin page_url (pyStrip h))
          | none => none

/-- Left-biased choice on optional strings. -/
def orElseO (a b : Option String) : Option String :=
  match a with
  | some x => some x
  | none => b

/-- The prioritised strategy chain of `_find_next_page`, as an abstract
first-hit. -/
def firstPaginationHit (p : PaginationPage) : Option String :=
  orElseO (truthyOpt p.nextInPagelink)
    (orElseO (truthyOpt p.relNext)
      (orElseO (truthyOpt p.afterActive)
        (orElseO (truthyOpt p.gtInPagelink) (truthyOpt p.gtAnyPagination))))

/-! ## Failed-chapter retry phase (`crawl_ce5d8cdd.process_book`, lines
332-351)

An entry of the failure queue is a `(no, href)` pair.  The outcome of
re-attempting one entry in a given round (fetch, parse,非empty paragraph
check) is an oracle `succ : Nat → RetryEntry → Bool` (round number first).
`as_completed` returns results in arbitrary order; the properties proved
(membership, size) are permutation-invariant, so the round is modelled as an
order-preserving filter. -/

abbrev RetryEntry := Nat × String

/-- One retry round: entries whose re-attempt again yielded no paragraphs
survive, unchanged. -/
def retryStep (succ : RetryEntry → Bool) (fails : List RetryEntry) :
    List RetryEntry :=
  fails.filter (fun e => !succ e)

/-- The bounded retry loop: at most `rounds` rounds, stopping early when the
queue empties.  `rd` is the current round index. -/
def retry_phase (succ : Nat → RetryEntry → Bool) :
    Nat → Nat → List RetryEntry → List RetryEntry
  | _, 0, fails => fails
  | rd, n + 1, fails =>
    if fails.isEmpty then fails
    else retry_phase succ (rd + 1) n (retryStep (succ rd) fails)

/-- The tail of `process_book`: run the retry phase; a non-empty residual
queue is only logged, and the function returns `1` regardless. -/
def process_book_retry (succ : Nat → RetryEntry → Bool)
    (retry_rounds : Nat) (fails : List RetryEntry) : List RetryEntry × Nat :=
  (retry_phase succ 0 retry_rounds fails, 1)

/-! ## Text cleaning (`site_ce5d8cdd._clean_text`) -/

/-- `re.sub(r"<[^>]+>", "", x)`: drop every tag of at least one character
between angle brackets.  Fuelled scanner; fuel is initialised above the
input length. -/
def dropTagsFuel : Nat → List Char → List Char
  | 0, l => l
  | _ + 1, [] => []
  | fuel + 1, c :: rest =>
    if c == '<' then
      match findSubAux ">".toList rest 0 with
      | some j =>
        if 1 ≤ j then dropTagsFuel fuel (rest.drop (j + 1))
        else c :: dropTagsFuel fuel rest
      | none => c :: dropTagsFuel fuel rest
    else c :: dropTagsFuel fuel rest

def dropTags (l : List Char) : List Char := dropTagsFuel (l.length + 1) l

/-- `re.sub(r"&nbsp;?", " ", x)`: each `&nbsp` entity (with optional
semicolon) becomes one space. -/
def replaceNbspEntityFuel : Nat → List Char → List Char
  | 0, l => l
  | _ + 1, [] => []
  | fuel + 1, c :: rest =>
    if isPrefixOfB "&nbsp".toList (c :: rest) then
      match (c :: rest).drop 5 with
      | ';' :: r2 => ' ' :: replaceNbspEntityFuel fuel r2
      | r => ' ' :: replaceNbspEntityFuel fuel r
    else c :: replaceNbspEntityFuel fuel rest

def replaceNbspEntity (l : List Char) : List Char :=
  replaceNbspEntityFuel (l.length + 1) l

/-- `re.sub(r"\s+", " ", x)`: collapse every whitespace run to one space. -/
def collapseWsRunsFuel : Nat → List Char → List Char
  | 0, l => l
  | _ + 1, [] => []
  | fuel + 1, c :: rest =>
    if pyIsSpace c then
      ' ' :: collapseWsRunsFuel fuel ((c :: rest).dropWhile pyIsSpace)
    else c :: collapseWsRunsFuel fuel rest

def collapseWsRuns (l : List Char) : List Char :=
  collapseWsRunsFuel (l.length + 1) l

/-- `_clean_text(x)` (source lines 18-23): strip tags, decode `&nbsp`,
collapse whitespace, strip. -/
def _clean_text (x : String) : String :=
  if x = "" then ""
  else pyStrip (String.mk (collapseWsRuns (replaceNbspEntity
    (dropTags x.toList))))

/-- `_first(sel, css)`: the raw query result, default `""` for a missing
node. -/
def _first (o : Option String) : String := o.getD ""

/-- `_first_txt(sel, css)`: cleaned text of a query result. -/
def _first_txt (o : Option String) : String := _clean_text (_first o)

/-! ## TOC extraction (`site_ce5d8cdd.parse_toc`)

The anchor set produced by the CSS query union (`#list a, ...`) is external
`parsel` work; an `Anchor` carries the attributes and text the source
reads. -/

structure Anchor where
  href : Option String := none
  dataHref : Option String := none
  dataUrl : Option String := none
  text : Option String := none

structure ChapterRef where
  no : Nat
  title : String
  href : String
  site_id : Nat
deriving DecidableEq

/-- `(a.attrib.get('href') or a.attrib.get('data-href') or
a.attrib.get('data-url') or '').strip()`. -/
def anchorRawHref (a : Anchor) : String :=
  pyStrip (firstTruthyStr [a.href.getD "", a.dataHref.getD "", a.dataUrl.getD ""])

/-- `_is_bad_href(h)` (source lines 218-227). -/
def _is_bad_href (h : String) : Bool :=
  if h = "" then true
  else
    let hl := (pyStripList h.toList).map Char.toLower
    isPrefixOfB "javascript:".toList hl || isPrefixOfB "#".toList hl ||
      isPrefixOfB "mailto:".toList hl || isPrefixOfB "tel:".toList hl ||
      containsListB "void(0".toList hl

/-- `/book/\d+/\d+\.html` starting here. -/
def tryChapPath1 (l : List Char) : Bool :=
  (((((lit "/book/".toList l).bind digits1).bind
    (lit "/".toList)).bind digits1).bind (lit ".html".toList)).isSome

/-- `/\d+/\d+\.html` starting here. -/
def tryChapPath2 (l : List Char) : Bool :=
  (((((lit "/".toList l).bind digits1).bind
    (lit "/".toList)).bind digits1).bind (lit ".html".toList)).isSome

/-- `/\d+_\d+\.html` starting here. -/
def tryChapPath3 (l : List Char) : Bool :=
  (((((lit "/".toList l).bind digits1).bind
    (lit "_".toList)).bind digits1).bind (lit ".html".toList)).isSome

/-- `/read/\d+(?:_\d+)?\.html` starting here. -/
def tryChapPath4 (l : List Char) : Bool :=
  match (lit "/read/".toList l).bind digits1 with
  | some r =>
    (match (lit "_".toList r).bind digits1 with
     | some r2 => (lit ".html".toList r2).isSome
     | none => false) || (lit ".html".toList r).isSome
  | none => false

/-- `/book/\d+/\d+/?$` starting here and reaching the end. -/
def tryChapPath5 (l : List Char) : Bool :=
  match ((((lit "/book/".toList l).bind digits1).bind
      (lit "/".toList)).bind digits1) with
  | some r => r == [] || r == ['/']
  | none => false

/-- `第\s*\d+\s*[章节回节部卷]` starting here. -/
def chapterHeadingAt (l : List Char) : Bool :=
  match l with
  | '第' :: r =>
    (match digits1 (r.dropWhile pyIsSpace) with
     | some r2 =>
       (match r2.dropWhile pyIsSpace with
        | c :: _ =>
          c == '章' || c == '节' || c == '回' || c == '部' || c == '卷'
        | [] => false)
     | none => false)
  | _ => false

/-- `re.match(r'^\d{1,4}\s*$', t)`. -/
def smallIntMatch (l : List Char) : Bool :=
  let ds := l.takeWhile Char.isDigit
  decide (1 ≤ ds.length) && decide (ds.length ≤ 4) &&
    (l.drop ds.length).all pyIsSpace

/-- `_looks_like_chapter(u, text)` (source lines 229-245). -/
def _looks_like_chapter (u : String) (text : String) : Bool :=
  let path := (urlPath u).toList.map Char.toLower
  if searchB tryChapPath1 path || searchB tryChapPath2 path ||
      searchB tryChapPath3 path || searchB tryChapPath4 path ||
      searchB tryChapPath5 path then true
  else
    let t := pyStrip text
    t != "" && decide (t.length ≤ 20) &&
      (searchB chapterHeadingAt t.toList || smallIntMatch t.toList)

/-- `/(\d+)\.html$` starting here and reaching the end: capture the run. -/
def siteIdTailA (l : List Char) : Option Nat :=
  match lit "/".toList l with
  | some r =>
    (match digits1Val r with
     | some (n, r2) =>
       (match lit ".html".toList r2 with
        | some [] => some n
        | _ => none)
     | none => none)
  | none => none

/-- `/book/\d+/(\d+)/?$` starting here and reaching the end. -/
def siteIdTailB (l : List Char) : Option Nat :=
  match (((lit "/book/".toList l).bind digits1).bind (lit "/".toList)) with
  | some r =>
    (match digits1Val r with
     | some (n, r2) => if r2 == [] || r2 == ['/'] then some n else none
     | none => none)
  | none => none

/-- The `site_id` recorded for one TOC anchor (source lines 256-257). -/
def tocSiteId (u : String) : Nat :=
  match searchOpt siteIdTailA u.toList with
  | some n => n
  | none => (searchOpt siteIdTailB u.toList).getD 0

/-- Decimal digits of `n`, most significant first (fuelled division loop). -/
def natDigitsAux : Nat → Nat → List Char → List Char
  | 0, _, acc => acc
  | fuel + 1, n, acc =>
    let d := Nat.digitChar (n % 10)
    if n < 10 then d :: acc else natDigitsAux fuel (n / 10) (d :: acc)

/-- Decimal rendering of a natural number (Python `str`/`format`). -/
def natRepr (n : Nat) : String := String.mk (natDigitsAux (n + 1) n [])

/-- The filtered anchor list `prelim` of `parse_toc` (source lines
247-258). -/
structure TocPrelim where
  href : String
  title : String
  site_id : Nat
deriving DecidableEq

def tocPrelim (book_url : String) (anchors : List Anchor) : List TocPrelim :=
  anchors.filterMap (fun a =>
    let href := anchorRawHref a
    if _is_bad_href href then none
    else
      let u := urljoin book_url href
      let t := _clean_text (a.text.getD "")
      if !_looks_like_chapter u t then none
      else some ⟨u, t, tocSiteId u⟩)

/-- `for i, row in enumerate(prelim, 1)` (source lines 260-269). -/
def numberToc : Nat → List TocPrelim → List ChapterRef
  | _, [] => []
  | i, row :: rest =>
    { no := i,
      title := if row.title = "" then "第" ++ natRepr i ++ "章" else row.title,
      href := row.href, site_id := row.site_id } :: numberToc (i + 1) rest

/-- `parse_toc(html, book_url)` over the discovered anchor list. -/
def parse_toc (book_url : String) (anchors : List Anchor) : List ChapterRef :=
  numberToc 1 (tocPrelim book_url anchors)

/-! ## Chapter persistence and resume (`crawl_ce5d8cdd.process_book`, lines
292-330, and `save_chapter_text`)

The chapters directory is a list of (file name, byte size) pairs. -/

/-- `f"{no:04d}"`. -/
def pad4 (n : Nat) : String :=
  String.mk (List.replicate (4 - (natRepr n).length) '0') ++ natRepr n

structure ChapFile where
  name : String
  size : Nat
deriving DecidableEq

/-- `chap_dir.glob("*.txt")` membership test on a name. -/
def endsWithTxt (name : String) : Bool :=
  isPrefixOfB ".txt".toList.reverse name.toList.reverse

/-- `p.name.split("-")[0]`. -/
def firstDashField (s : String) : String :=
  String.mk (s.toList.takeWhile (fun c => c != '-'))

/-- The `existing_prefix` set (source lines 292-300): first dash-field of
every `*.txt` file larger than 10 bytes. -/
def existingPrefixSet (files : List ChapFile) : List String :=
  (files.filter (fun f => endsWithTxt f.name && decide (10 < f.size))).map
    (fun f => firstDashField f.name)

/-- The chapters submitted to the executor (source lines 319-323): skipped
iff the overwrite flag is unset and the zero-padded number is in
`existing_prefix`. -/
def submittedChapters (overwrite : Bool) (files : List ChapFile)
    (toc : List ChapterRef) : List ChapterRef :=
  toc.filter (fun ch =>
    overwrite || !(existingPrefixSet files).contains (pad4 ch.no))

/-- `save_chapter_text` file name: `f"{pad}-{(slug_part or pad)}.txt"` with
`slug_part = f"{no:04d}"`. -/
def chapterFileName (no : Nat) : String := pad4 no ++ "-" ++ pad4 no ++ ".txt"

/-- `"\n".join(paras)`, the bytes written by `save_chapter_text`. -/
def saveContent (paras : List String) : String := String.intercalate "\n" paras

/-- Files written by one run started on an empty chapters directory, given
the fetch-and-parse outcome of every chapter (`parasOf`, `[]` meaning the
chapter failed): a chapter is saved iff `no` and its paragraph list are
truthy (source lines 324-330). -/
def runFiles (toc : List ChapterRef) (parasOf : ChapterRef → List String) :
    List ChapFile :=
  (toc.filter (fun ch => decide (ch.no ≠ 0) && decide (parasOf ch ≠ []))).map
    (fun ch => ⟨chapterFileName ch.no, (saveContent (parasOf ch)).utf8ByteSize⟩)

/-! ## Book metadata extraction (`site_ce5d8cdd.parse_book_meta`)

Each CSS/XPath query the function issues is a field of `MetaPage` (the
external `parsel` work); `_first_txt` cleaning is applied in the function,
as in the source.  The `crawl.common` category helpers are the `CatCfg`
record; `hashlib.md5` is the parameter `md5hex10`; `datetime.utcnow` is the
parameter `now`. -/

/-- `f"{n:02d}"`. -/
def pad2 (n : Nat) : String :=
  String.mk (List.replicate (2 - (natRepr n).length) '0') ++ natRepr n

/-- `_norm_status(s)` (source lines 69-74). -/
def _norm_status (s : String) : String :=
  let s := pyStrip s
  if s = "" then ""
  else if containsStrB s "完" then "已完结"
  else if containsStrB s "连载" then "连载中"
  else s

/-- The first `(\d[\d,\.]*)` token of the text, if any. -/
def findFirstDigitRun : List Char → Option (List Char)
  | [] => none
  | c :: rest =>
    if c.isDigit then
      some (c :: rest.takeWhile (fun d => d.isDigit || d == ',' || d == '.'))
    else findFirstDigitRun rest

/-- `_find_number(text, 0)` (source lines 35-43): first numeric token,
commas removed, `int(float(t))`.  A token with two or more dots makes
`float` raise, yielding the default; otherwise the value is the integer
part before the first dot (exact here, whereas Python `float` rounds
beyond 2⁵³ — immaterial for word counts). -/
def _find_number (text : String) : Nat :=
  match findFirstDigitRun text.toList with
  | none => 0
  | some tok =>
    let t := tok.filter (fun c => c != ',')
    if decide (2 ≤ (t.filter (fun c => c == '.')).length) then 0
    else digitsVal (t.takeWhile Char.isDigit)

/-- `作者[:：]\s*([^\s/|]+)` starting here: capture the author name. -/
def authorAt (l : List Char) : Option String :=
  match l with
  | '作' :: '者' :: c :: rest =>
    if c == ':' || c == '：' then
      let r := rest.dropWhile pyIsSpace
      let name := r.takeWhile (fun d => !pyIsSpace d && d != '/' && d != '|')
      if name.isEmpty then none else some (String.mk name)
    else none
  | _ => none

/-- The author fallback regex applied to the page body text. -/
def findAuthor (t : String) : String := (searchOpt authorAt t.toList).getD ""

/-- `\d{1,2}-`, greedy (two digits preferred), value and rest. -/
def digits12Dash (l : List Char) : Option (Nat × List Char) :=
  match l with
  | a :: b :: c :: r =>
    if a.isDigit && b.isDigit && c == '-' then some (digitsVal [a, b], r)
    else if a.isDigit && b == '-' then some (digitsVal [a], c :: r)
    else none
  | [a, b] => if a.isDigit && b == '-' then some (digitsVal [a], []) else none
  | _ => none

/-- `\d{1,2}`, greedy, with the number of digits consumed. -/
def digits12 (l : List Char) : Option (Nat × Nat × List Char) :=
  match l with
  | a :: b :: r =>
    if a.isDigit && b.isDigit then some (digitsVal [a, b], 2, r)
    else if a.isDigit then some (digitsVal [a], 1, b :: r)
    else none
  | [a] => if a.isDigit then some (digitsVal [a], 1, []) else none
  | [] => none

/-- `\d{1,2}:`, greedy, with the number of digits consumed. -/
def digits12Colon (l : List Char) : Option (Nat × Nat × List Char) :=
  match l with
  | a :: b :: c :: r =>
    if a.isDigit && b.isDigit && c == ':' then some (digitsVal [a, b], 2, r)
    else if a.isDigit && b == ':' then some (digitsVal [a], 1, c :: r)
    else none
  | [a, b] => if a.isDigit && b == ':' then some (digitsVal [a], 1, []) else none
  | _ => none

/-- `\d{1,2}:\d{2}(?::\d{2})?` starting here: (hour, hour digit count,
minute, optional second). -/
def tryTime (l : List Char) : Option (Nat × Nat × Nat × Option Nat) :=
  match digits12Colon l with
  | some (h, hd, r) =>
    (match r with
     | m1 :: m2 :: r2 =>
       if m1.isDigit && m2.isDigit then
         (match r2 with
          | ':' :: s1 :: s2 :: _ =>
            if s1.isDigit && s2.isDigit then
              some (h, hd, digitsVal [m1, m2], some (digitsVal [s1, s2]))
            else some (h, hd, digitsVal [m1, m2], none)
          | _ => some (h, hd, digitsVal [m1, m2], none))
       else none
     | _ => none)
  | none => none

/-- `(\d{4}-\d{1,2}-\d{1,2})(?:\s+(\d{1,2}:\d{2}(?::\d{2})?))?` starting
here: (year, month, day, optional time). -/
def tryDate (l : List Char) :
    Option (Nat × Nat × Nat × Option (Nat × Nat × Nat × Option Nat)) :=
  match l with
  | a :: b :: c :: d :: '-' :: r =>
    if a.isDigit && b.isDigit && c.isDigit && d.isDigit then
      match digits12Dash r with
      | some (mo, r2) =>
        (match digits12 r2 with
         | some (dy, _, r3) =>
           let ws := r3.takeWhile pyIsSpace
           let t := if ws.isEmpty then none else tryTime (r3.drop ws.length)
           some (digitsVal [a, b, c, d], mo, dy, t)
         | none => none)
      | none => none
    else none
  | _ => none

def isLeapYear (y : Nat) : Bool :=
  y % 4 == 0 && (y % 100 != 0 || y % 400 == 0)

def daysInMonth (y mo : Nat) : Nat :=
  if mo == 2 then (if isLeapYear y then 29 else 28)
  else if mo == 4 || mo == 6 || mo == 9 || mo == 11 then 30
  else 31

/-- The calendar validation `datetime.strptime` performs. -/
def validDate (y mo d : Nat) : Bool :=
  decide (1 ≤ y) && decide (1 ≤ mo) && decide (mo ≤ 12) && decide (1 ≤ d) &&
    decide (d ≤ daysInMonth y mo)

/-- The update-time block of `parse_book_meta` (source lines 162-173): find
a permissive date(+time), default the time to midnight, append seconds only
to a five-character time (so `9:30` fails `strptime` and falls through),
validate via `strptime`, render `isoformat() + "Z"`; any failure yields the
current time `now`. -/
def parse_update_time (up_text now : String) : String :=
  match searchOpt tryDate up_text.toList with
  | none => now
  | some (y, mo, dy, tOpt) =>
    let tv : Option (Nat × Nat × Nat) :=
      match tOpt with
      | none => some (0, 0, 0)
      | some (h, hd, mi, sOpt) =>
        match sOpt with
        | some s => some (h, mi, s)
        | none => if hd == 2 then some (h, mi, 0) else none
    match tv with
    | none => now
    | some (h, mi, s) =>
      if validDate y mo dy && decide (h ≤ 23) && decide (mi ≤ 59) &&
          decide (s ≤ 59) then
        pad4 y ++ "-" ++ pad2 mo ++ "-" ++ pad2 dy ++ "T" ++ pad2 h ++ ":" ++
          pad2 mi ++ ":" ++ pad2 s ++ "Z"
      else now

/-- `/book/(\d+)(?:/|\.html)?` starting here: capture the id digits. -/
def bookIdAt (l : List Char) : Option String :=
  match lit "/book/".toList l with
  | some r =>
    let ds := r.takeWhile Char.isDigit
    if ds.isEmpty then none else some (String.mk ds)
  | none => none

/-- `_extract_site_book_id(book_url)` (source lines 58-60). -/
def _extract_site_book_id (u : String) : String :=
  (searchOpt bookIdAt u.toList).getD ""

/-- The fixed slug alphabet of `_stable_slug`. -/
def slugAlphabet : List Char := "abcdefghijklmnopqrstuvwxyz0123456789".toList

/-- The digit-extraction loop of `_stable_slug`: least-significant base-36
digit first, exactly `k` characters. -/
def slugChars : Nat → Nat → List Char
  | _, 0 => []
  | num, k + 1 =>
    slugAlphabet.getD (num % slugAlphabet.length) 'a' ::
      slugChars (num / slugAlphabet.length) k

/-- `_stable_slug(seed, n)` (source lines 48-56).  `md5hex10 seed` stands
for `int(hashlib.md5(seed.encode()).hexdigest()[:10], 16)` — the external
hash collaborator. -/
def _stable_slug (md5hex10 : String → Nat) (seed : String) (n : Nat) : String :=
  String.mk (slugChars (md5hex10 seed) n)

/-- Separator class of the tag split `[，,/\s]+`. -/
def tagSep (c : Char) : Bool := c == '，' || c == ',' || c == '/' || pyIsSpace c

/-- `re.split` on runs of a separator class (keeps empty boundary parts, as
`re.split` does). -/
def splitRunsFuel (p : Char → Bool) :
    Nat → List Char → List Char → List (List Char)
  | 0, cur, _ => [cur.reverse]
  | _ + 1, cur, [] => [cur.reverse]
  | fuel + 1, cur, c :: rest =>
    if p c then
      cur.reverse :: splitRunsFuel p fuel [] ((c :: rest).dropWhile p)
    else splitRunsFuel p fuel (c :: cur) rest

/-- `[t.strip() for t in re.split(r"[，,/\s]+", mk) if t.strip()]`. -/
def tagList (mk : String) : List String :=
  ((splitRunsFuel tagSep (mk.toList.length + 1) [] mk.toList).map
    (fun t => pyStrip (String.mk t))).filter (fun t => t != "")

/-- `" ".join(filter(None, parts))`. -/
def joinSpaceNonEmpty (l : List String) : String :=
  String.intercalate " " (l.filter (fun s => s != ""))

/-- The `crawl.common` category collaborators (external, configured at
runtime): `map_category_name`, `match_category_by_keywords` (empty string =
no hit) and `get_default_category_id`. -/
structure CatCfg where
  mapName : String → String
  kwMatch : String → String
  defaultId : String

/-- The query results `parse_book_meta` reads, one field per selector, in
source order; `none` models a missing node. -/
structure MetaPage where
  og_book_name : Option String := none
  og_title : Option String := none
  h1_text : Option String := none
  book_info_h1 : Option String := none
  book_info2_h1 : Option String := none
  bookname_h1 : Option String := none
  title_text : Option String := none
  og_author : Option String := none
  info_author : Option String := none
  info2_author : Option String := none
  rel_author : Option String := none
  author_link : Option String := none
  author_node : Option String := none
  body_text : Option String := none
  og_image : Option String := none
  cover_info : Option String := none
  cover_book : Option String := none
  cover_info2 : Option String := none
  og_description : Option String := none
  intro_id : Option String := none
  intro_class : Option String := none
  bookintro_id : Option String := none
  book_intro_class : Option String := none
  meta_description : Option String := none
  og_category : Option String := none
  breadcrumb_cat : Option String := none
  sort_info : Option String := none
  sort_info2 : Option String := none
  sort_bookdata : Option String := none
  category_info : Option String := none
  category_info2 : Option String := none
  og_status : Option String := none
  status_info : Option String := none
  status_info2 : Option String := none
  words_info : Option String := none
  words_info2 : Option String := none
  words_bookdata : Option String := none
  og_update_time : Option String := none
  update_info : Option String := none
  update_info2 : Option String := none
  update_bookdata : Option String := none
  og_read_url : Option String := none
  meta_keywords : Option String := none

/-- The title fallback chain (source lines 76-84). -/
def metaTitle (p : MetaPage) : String :=
  firstTruthyStr [_first_txt p.og_book_name, _first_txt p.og_title,
    _first_txt p.h1_text, _first_txt p.book_info_h1,
    _first_txt p.book_info2_h1, _first_txt p.bookname_h1,
    _first_txt p.title_text]

/-- The author fallback chain plus body-text regex (source lines 85-96). -/
def metaAuthor (p : MetaPage) : String :=
  let a := firstTruthyStr [_first_txt p.og_author, _first_txt p.info_author,
    _first_txt p.info2_author, _first_txt p.rel_author,
    _first_txt p.author_link, _first_txt p.author_node]
  if a = "" then findAuthor (_first_txt p.body_text) else a

/-- The cover chain with relative-URL resolution (source lines 98-105). -/
def metaCover (p : MetaPage) (book_url : String) : String :=
  let cover := firstTruthyStr [_first p.og_image, _first p.cover_info,
    _first p.cover_book, _first p.cover_info2]
  if cover != "" && !(startsWithStr cover "http://" ||
      startsWithStr cover "https://" || startsWithStr cover "/") then
    urljoin book_url cover
  else cover

/-- The intro chain (source lines 107-114). -/
def metaIntro (p : MetaPage) : String :=
  firstTruthyStr [_first_txt p.og_description, _first_txt p.intro_id,
    _first_txt p.intro_class, _first_txt p.bookintro_id,
    _first_txt p.book_intro_class, _first_txt p.meta_description]

/-- The category-name chain (source lines 117-126). -/
def metaCatName (p : MetaPage) : String :=
  let c := _first_txt p.og_category
  if c = "" then
    firstTruthyStr [_first_txt p.breadcrumb_cat, _first_txt p.sort_info,
      _first_txt p.sort_info2, _first_txt p.sort_bookdata,
      _first_txt p.category_info, _first_txt p.category_info2]
  else c

/-- The category resolution chain: explicit rules, then keyword match, then
the caller hint, then the configured default (source lines 128-142). -/
def metaCategoryId (cfg : CatCfg) (p : MetaPage) (category_hint : String) :
    String :=
  let cat_name := metaCatName p
  let cid := cfg.mapName cat_name
  let cid :=
    if cid = cfg.defaultId then
      let hit := cfg.kwMatch (joinSpaceNonEmpty [cat_name,
        _first_txt p.meta_keywords, _first_txt p.og_description,
        _first_txt p.meta_description])
      if hit ≠ "" then hit else cid
    else cid
  if cid = cfg.defaultId then
    (if category_hint ≠ "" then category_hint else cid)
  else cid

/-- The status chain (source lines 144-148). -/
def metaStatus (p : MetaPage) : String :=
  firstTruthyStr [_norm_status (_first_txt p.og_status),
    _norm_status (_first_txt p.status_info),
    _norm_status (_first_txt p.status_info2)]

/-- The word-count text chain (source lines 149-153). -/
def metaWordsText (p : MetaPage) : String :=
  firstTruthyStr [_first_txt p.words_info, _first_txt p.words_info2,
    _first_txt p.words_bookdata]

/-- The update-time text chain (source lines 156-161). -/
def metaUpText (p : MetaPage) : String :=
  firstTruthyStr [_first_txt p.og_update_time, _first_txt p.update_info,
    _first_txt p.update_info2, _first_txt p.update_bookdata]

/-- `site_book_id` with the `og:novel:read_url` fallback (source lines
175-179). -/
def metaSiteBookId (p : MetaPage) (book_url : String) : String :=
  let sid := _extract_site_book_id book_url
  if sid = "" then
    (let og_read := _first_txt p.og_read_url
     if og_read ≠ "" then _extract_site_book_id og_read else sid)
  else sid

/-- `slug_seed = site_book_id or (netloc + "/" + (title or ""))` (source
line 181). -/
def slugSeed (p : MetaPage) (book_url : String) : String :=
  let sid := metaSiteBookId p book_url
  if sid ≠ "" then sid else urlNetloc book_url ++ "/" ++ metaTitle p

/-- The record `parse_book_meta` returns (`source` flattened into three
fields). -/
structure BookMeta where
  id : String
  slug : String
  title : String
  author : String
  category_id : String
  status : String
  cover : String
  intro : String
  words : Nat
  update_time : String
  source_site : String
  source_book_url : String
  source_site_book_id : String
  tags : List String
  rating : Nat

/-- `parse_book_meta(html, book_url, category_hint)` (source lines
62-205). -/
def parse_book_meta (md5f : String → Nat) (cfg : CatCfg) (p : MetaPage)
    (book_url category_hint now : String) : BookMeta :=
  let title := metaTitle p
  let site_book_id := metaSiteBookId p book_url
  let slug := _stable_slug md5f (slugSeed p book_url) 5
  let mk := _first_txt p.meta_keywords
  { id := firstTruthyStr [title, site_book_id, slug]
    slug := slug
    title := if title = "" then slug else title
    author := metaAuthor p
    category_id := metaCategoryId cfg p category_hint
    status := metaStatus p
    cover := metaCover p book_url
    intro := metaIntro p
    words := _find_number (metaWordsText p)
    update_time := parse_update_time (metaUpText p) now
    source_site := "ce5d8cdd"
    source_book_url := book_url
    source_site_book_id := site_book_id
    tags := if mk = "" then [] else tagList mk
    rating := 0 }

/-- A page on which every query missed (anti-bot interstitial, truncated
markup, or the empty string carried forward after a failed fetch). -/
def emptyMetaPage : MetaPage := {}

/-- An arbitrary concrete category configuration for witnesses. -/
def cfgAny : CatCfg := ⟨fun _ => "0", fun _ => "", "0"⟩

/-- A page whose only signals are an `og:novel:book_name` title and an
`og:novel:read_url` carrying a site-native book id. -/
def pageSeedC6 : MetaPage :=
  { og_book_name := some "T", og_read_url := some "https://x.test/book/123/" }

/-! ## Chapter content extraction (`site_ce5d8cdd.parse_chapter_content`)

The twelve container selectors are queried through `parsel` (external):
`containers` holds the raw outer html each returns (`sel.css(css).get()`),
`containerTexts` the `normalize-space(string())` text each returns when the
selector matches, `bodyRaw` / `bodyText` the same two views of `body`, and
`html` the original input string. -/

/-- Case-insensitive `findSubAux`. -/
def findSubAuxCI (pat l : List Char) (i : Nat) : Option Nat :=
  findSubAux (pat.map Char.toLower) (l.map Char.toLower) i

/-- `re.sub(r"(?is)<OPEN[^>]*>.*?</CLOSE>", "", s)`: non-greedy block
removal (used for `script` and `style`). -/
def removeBlocksFuel (openTag closeTag : List Char) :
    Nat → List Char → List Char
  | 0, l => l
  | _ + 1, [] => []
  | fuel + 1, c :: rest =>
    if isPrefixOfCI openTag (c :: rest) then
      match findSubAux ">".toList ((c :: rest).drop openTag.length) 0 with
      | some j =>
        (let afterOpen := (c :: rest).drop (openTag.length + j + 1)
         match findSubAuxCI closeTag afterOpen 0 with
         | some k =>
           removeBlocksFuel openTag closeTag fuel
             (afterOpen.drop (k + closeTag.length))
         | none => c :: removeBlocksFuel openTag closeTag fuel rest)
      | none => c :: removeBlocksFuel openTag closeTag fuel rest
    else c :: removeBlocksFuel openTag closeTag fuel rest

def removeBlocks (openTag closeTag : String) (l : List Char) : List Char :=
  removeBlocksFuel openTag.toList closeTag.toList (l.length + 1) l

/-- Does the `<a` tag body (chars before `>`) carry
`id=['"](pb_prev|pb_mulu|pb_next)['"]` at index at least one (the `[^>]+`
part), quotes independently chosen as in the source pattern? -/
def navIdHit (tagBody : List Char) : Bool :=
  ["pb_prev", "pb_mulu", "pb_next"].any (fun nm =>
    ['\'', '"'].any (fun q1 =>
      ['"', '\''].any (fun q2 =>
        containsCI (tagBody.drop 1)
          ("id=".toList ++ [q1] ++ nm.toList ++ [q2]))))

/-- `re.sub(r'(?is)<a[^>]+id=[\'"](pb_prev|pb_mulu|pb_next)[\'"][^>]*>.*?</a>', '', s)`. -/
def removeNavAnchorsFuel : Nat → List Char → List Char
  | 0, l => l
  | _ + 1, [] => []
  | fuel + 1, c :: rest =>
    if isPrefixOfCI "<a".toList (c :: rest) then
      match findSubAux ">".toList ((c :: rest).drop 2) 0 with
      | some j =>
        (let tagBody := ((c :: rest).drop 2).take j
         if navIdHit tagBody then
           (let afterOpen := (c :: rest).drop (2 + j + 1)
            match findSubAuxCI "</a>".toList afterOpen 0 with
            | some k => removeNavAnchorsFuel fuel (afterOpen.drop (k + 4))
            | none => c :: removeNavAnchorsFuel fuel rest)
         else c :: removeNavAnchorsFuel fuel rest)
      | none => c :: removeNavAnchorsFuel fuel rest
    else c :: removeNavAnchorsFuel fuel rest

/-- After `class=`: a quote, then a quote-free value containing `Readpage`
or `link`, then a closing quote (`['"][^"\']*(Readpage|link)[^"\']*[\'"]`). -/
def quoteValueHit (l : List Char) : Bool :=
  match l with
  | q :: r =>
    (q == '"' || q == '\'') &&
      (let v := r.takeWhile (fun d => !(d == '"' || d == '\''))
       !(r.drop v.length).isEmpty &&
         (containsCI v "Readpage".toList || containsCI v "link".toList))
  | [] => false

/-- Does the tag body carry a matching `class=` attribute at index at least
one (the `[^>]+` part)? -/
def classKwHit (tagBody : List Char) : Bool :=
  searchB (fun l => isPrefixOfCI "class=".toList l && quoteValueHit (l.drop 6))
    (tagBody.drop 1)

/-- Which of the alternation `(div|p|section)` matches after `<` here (the
regex does not require a word boundary, exactly as in the source). -/
def readpageTagAt (l : List Char) : Option (List Char) :=
  if isPrefixOfCI "<div".toList l then some "div".toList
  else if isPrefixOfCI "<p".toList l then some "p".toList
  else if isPrefixOfCI "<section".toList l then some "section".toList
  else none

/-- `re.sub(r'(?is)<(div|p|section)[^>]+class=[\'"][^"\']*(Readpage|link)[^"\']*[\'"][^>]*>.*?</\1>', '', s)`. -/
def removeReadpageFuel : Nat → List Char → List Char
  | 0, l => l
  | _ + 1, [] => []
  | fuel + 1, c :: rest =>
    match readpageTagAt (c :: rest) with
    | some tag =>
      (match findSubAux ">".toList ((c :: rest).drop (1 + tag.length)) 0 with
       | some j =>
         (let tagBody := ((c :: rest).drop (1 + tag.length)).take j
          if classKwHit tagBody then
            (let afterOpen := (c :: rest).drop (1 + tag.length + j + 1)
             match findSubAuxCI ("</".toList ++ tag ++ ">".toList)
                 afterOpen 0 with
             | some k =>
               removeReadpageFuel fuel (afterOpen.drop (k + tag.length + 3))
             | none => c :: removeReadpageFuel fuel rest)
          else c :: removeReadpageFuel fuel rest)
       | none => c :: removeReadpageFuel fuel rest)
    | none => c :: removeReadpageFuel fuel rest

/-- `re.sub(r"(?i)<br\s*/?>", "\n", s)`. -/
def brToNlFuel : Nat → List Char → List Char
  | 0, l => l
  | _ + 1, [] => []
  | fuel + 1, c :: rest =>
    if isPrefixOfCI "<br".toList (c :: rest) then
      (let after := (c :: rest).drop 3
       let after2 := after.drop (after.takeWhile pyIsSpace).length
       match after2 with
       | '/' :: '>' :: r => '\n' :: brToNlFuel fuel r
       | '>' :: r => '\n' :: brToNlFuel fuel r
       | _ => c :: brToNlFuel fuel rest)
    else c :: brToNlFuel fuel rest

/-- `re.split(r"\r?\n", s)`: a lone `\r` is not a separator. -/
def splitNlFuel : Nat → List Char → List Char → List (List Char)
  | 0, cur, _ => [cur.reverse]
  | _ + 1, cur, [] => [cur.reverse]
  | fuel + 1, cur, '\r' :: '\n' :: rest => cur.reverse :: splitNlFuel fuel [] rest
  | fuel + 1, cur, '\n' :: rest => cur.reverse :: splitNlFuel fuel [] rest
  | fuel + 1, cur, c :: rest => splitNlFuel fuel (c :: cur) rest

/-- `re.sub(r" +", " ", ln)`. -/
def nbspRunsFuel : Nat → List Char → List Char
  | 0, l => l
  | _ + 1, [] => []
  | fuel + 1, c :: rest =>
    if c == ' ' then
      ' ' :: nbspRunsFuel fuel (rest.dropWhile (fun d => d == ' '))
    else c :: nbspRunsFuel fuel rest

/-- `re.sub(r"[ \t]{2,}", " ", ln)`: only runs of two or more collapse. -/
def collapseSTFuel : Nat → List Char → List Char
  | 0, l => l
  | _ + 1, [] => []
  | fuel + 1, c :: rest =>
    if c == ' ' || c == '\t' then
      (let run := (c :: rest).takeWhile (fun d => d == ' ' || d == '\t')
       if decide (2 ≤ run.length) then
         ' ' :: collapseSTFuel fuel ((c :: rest).drop run.length)
       else c :: collapseSTFuel fuel rest)
    else c :: collapseSTFuel fuel rest

/-- `_noise_line(ln)` (source lines 296-302). -/
def _noise_line (ln : String) : Bool :=
  ln == "上一章" || ln == "下一章" || ln == "目录" ||
  startsWithStr ln "新书推荐" ||
  containsStrB ln "加入书签" || containsStrB ln "点此报错" ||
  (containsStrB ln "请收藏本站" &&
    (containsStrB ln "www." || containsStrB ln "https://" ||
      containsStrB ln "http://")) ||
  (containsStrB ln "手机版：" &&
    (containsStrB ln "https://" || containsStrB ln "http://"))

/-- One step of the blank-run collapsing loop (`paras` kept reversed). -/
def pushPara (acc : List String) (ln : String) : List String :=
  if ln = "" ∧ (acc = [] ∨ acc.headD "" = "") then acc else ln :: acc

/-- The `for ln in cleaned` loop (source lines 306-309). -/
def collapseBlanks (lines : List String) : List String :=
  (lines.foldl pushPara []).reverse

/-- The two `while` loops stripping blank lines at both ends (source lines
310-311). -/
def stripBlankEnds (l : List String) : List String :=
  ((l.dropWhile (fun s => s == "")).reverse.dropWhile
    (fun s => s == "")).reverse

structure ChapterPage where
  containers : List (Option String) := List.replicate 12 none
  containerTexts : List (Option String) := List.replicate 12 none
  bodyRaw : Option String := none
  bodyText : Option String := none
  html : String := ""

/-- `node_html` selection (source lines 282-288): first truthy container,
else the body, else the raw input. -/
def nodeHtmlOf (p : ChapterPage) : String :=
  (firstTruthyOpt p.containers).getD ((truthyOpt p.bodyRaw).getD p.html)

/-- The regex-substitution chain on `node_html` (source lines 289-294). -/
def cleanNodeHtml (s : String) : List Char :=
  let n1 := removeBlocks "<script" "</script>" s.toList
  let n2 := removeBlocks "<style" "</style>" n1
  let n3 := removeNavAnchorsFuel (n2.length + 1) n2
  let n4 := removeReadpageFuel (n3.length + 1) n3
  let n5 := brToNlFuel (n4.length + 1) n4
  dropTags n5

/-- The structured paragraph extraction (source lines 282-311): clean,
split on newlines, strip and decode NBSP, drop empty and boilerplate lines,
collapse space runs, collapse blank runs, trim blank ends. -/
def structuredParas (p : ChapterPage) : List String :=
  let node := cleanNodeHtml (nodeHtmlOf p)
  let lines := (splitNlFuel (node.length + 1) [] node).map
    (fun ln => nbspRunsFuel (ln.length + 1) (pyStripList ln))
  let cleaned := (lines.filter
      (fun ln => !ln.isEmpty && !_noise_line (String.mk ln))).map
    (fun ln => String.mk (collapseSTFuel (ln.length + 1) ln))
  stripBlankEnds (collapseBlanks cleaned)

/-- One step of the max-text fold of the fallback path (source lines
315-321). -/
def maxTextStep (txt : String) (o : Option String) : String :=
  match o with
  | some v => if v != "" && decide (txt.length < v.length) then v else txt
  | none => txt

/-- The fallback text: the candidate container text with the most
characters, else the body text (source lines 315-323). -/
def fallbackText (p : ChapterPage) : String :=
  let txt := p.containerTexts.foldl maxTextStep ""
  if txt = "" then p.bodyText.getD "" else txt

/-- The sentence-ending class `[。！？!?\.;]` of the fallback split. -/
def sentencePunct (c : Char) : Bool :=
  c == '。' || c == '！' || c == '？' || c == '!' || c == '?' || c == '.' ||
    c == ';'

/-- `re.split(r"[\n\r]+|(?<=[。！？!?\.;])\s+", txt)`: the first branch is
tried first at each position; `prev` carries the look-behind character. -/
def sentSplitFuel : Nat → Option Char → List Char → List Char → List (List Char)
  | 0, _, cur, _ => [cur.reverse]
  | _ + 1, _, cur, [] => [cur.reverse]
  | fuel + 1, prev, cur, c :: rest =>
    if c == '\n' || c == '\r' then
      cur.reverse :: sentSplitFuel fuel (some '\n') []
        ((c :: rest).dropWhile (fun d => d == '\n' || d == '\r'))
    else if pyIsSpace c && (match prev with
        | some pc => sentencePunct pc
        | none => false) then
      cur.reverse :: sentSplitFuel fuel (some ' ') []
        ((c :: rest).dropWhile pyIsSpace)
    else sentSplitFuel fuel (some c) (c :: cur) rest

def sentSplit (l : List Char) : List (List Char) :=
  sentSplitFuel (l.length + 1) none [] l

/-- The fallback re-split and re-filter (source lines 324-334). -/
def fallbackParas (p : ChapterPage) : List String :=
  let parts := ((sentSplit (fallbackText p).toList).map
      (fun ch => pyStrip (String.mk ch))).filter
    (fun ch => ch != "" && !_noise_line ch)
  stripBlankEnds (collapseBlanks parts)

/-- `parse_chapter_content(html)` (source lines 273-335): the structured
result unless its concatenation is shorter than `MIN_LEN = 80`, in which
case the fallback path's result replaces it. -/
def parse_chapter_content (p : ChapterPage) : List String :=
  let paras := structuredParas p
  if (String.join paras).length < 80 then fallbackParas p else paras

/-- The page on which every query missed and the input is empty. -/
def emptyChapterPage : ChapterPage := {}

/-- A page whose single tracked container text is a healthy two-sentence
paragraph while the structured path sees only the tiny raw input. -/
def pageC7w : ChapterPage :=
  { containerTexts := [some "hello world. ok"], html := "hi" }

/-- A page whose `#content` container (position 5 of the selector list)
holds one short real line and one bookmark-boilerplate line: the structured
path keeps `AAA` (3 chars, below the gate), while the fallback path merges
both lines into one normalize-space chunk that the boilerplate filter drops
whole. -/
def pageC7c : ChapterPage :=
  { containers := [none, none, none, none, none,
      some "<div id=\"content\">AAA\n加入书签BBB</div>", none, none, none,
      none, none, none],
    containerTexts := [none, none, none, none, none,
      some "AAA 加入书签BBB", none, none, none, none, none, none],
    bodyRaw := some "<body><div id=\"content\">AAA\n加入书签BBB</div></body>",
    bodyText := some "AAA 加入书签BBB",
    html := "<html><body><div id=\"content\">AAA\n加入书签BBB</div></body></html>" }

/-! ## The urllib error path left unguarded by the extractors

`urllib.parse.urlsplit` raises `ValueError("Invalid IPv6 URL")` when the
netloc of the URL it parses contains a `[` without a `]` or vice versa, and
`urljoin` parses both of its arguments unless one is empty, so it
propagates that error.  `parse_toc` (source line 252) and the cover path of
`parse_book_meta` (source line 105) call `urljoin` with page-supplied
strings and no try/except, so a reachable anchor href such as `//[x`, or an
`og:image` such as `foo://[`, makes them raise — unlike every other lookup
in these extractors, which is wrapped.  The fallible variants below model
exactly that channel; wherever no join raises they agree with the total
definitions used above (proved in `tocPrelimE_agrees` /
`metaCoverE_agrees`). -/

/-- The bracket validation `urlsplit` applies to a netloc. -/
def netlocBracketsOk (u : String) : Bool :=
  ((urlNetloc u).toList.contains '[') == ((urlNetloc u).toList.contains ']')

/-- `urllib.parse.urljoin(base, rel)` with its error behaviour: an empty
argument is returned without parsing; otherwise both arguments are parsed
and a bracket-malformed netloc raises `ValueError("Invalid IPv6 URL")`. -/
def urljoinE (base rel : String) : Except String String :=
  if base = "" then Except.ok rel
  else if rel = "" then Except.ok base
  else if netlocBracketsOk base && netlocBracketsOk rel then
    Except.ok (urljoin base rel)
  else Except.error "Invalid IPv6 URL"

/-- The filtered anchor list of `parse_toc` with the join's error channel:
the first anchor whose href makes `urljoin` raise aborts the whole
extraction, as the unguarded call in the source does. -/
def tocPrelimE (book_url : String) : List Anchor → Except String (List TocPrelim)
  | [] => Except.ok []
  | a :: rest =>
    let href := anchorRawHref a
    if _is_bad_href href then tocPrelimE book_url rest
    else
      match urljoinE book_url href with
      | Except.error e => Except.error e
      | Except.ok u =>
        let t := _clean_text (a.text.getD "")
        match tocPrelimE book_url rest with
        | Except.error e => Except.error e
        | Except.ok l =>
          Except.ok (if !_looks_like_chapter u t then l
                     else ⟨u, t, tocSiteId u⟩ :: l)

/-- `parse_toc` with the join's error channel. -/
def parse_tocE (book_url : String) (anchors : List Anchor) :
    Except String (List ChapterRef) :=
  (tocPrelimE book_url anchors).map (numberToc 1)

/-- The cover field of `parse_book_meta` with the join's error channel
(source lines 98-105): a truthy cover that starts with none of `http://`,
`https://`, `/` is joined against the book URL unguarded. -/
def metaCoverE (p : MetaPage) (book_url : String) : Except String String :=
  let cover := firstTruthyStr [_first p.og_image, _first p.cover_info,
    _first p.cover_book, _first p.cover_info2]
  if cover != "" && !(startsWithStr cover "http://" ||
      startsWithStr cover "https://" || startsWithStr cover "/") then
    urljoinE book_url cover
  else Except.ok cover

/-- A page whose only signal is a scheme-relative, bracket-malformed
`og:image`. -/
def pageC9 : MetaPage := { og_image := some "foo://[" }

/-! ## Theorems -/

theorem stringMk_toList (s : String) : String.mk s.toList = s := rfl

theorem goodBody_iff (h : String) :
    goodBody h = true ↔ h ≠ "" ∧ _looks_like_error_page h = false := by
  simp [goodBody, and_comm]

theorem fetchRetryGo_eq (attempts : List (Option String)) (last : String) :
    fetchRetryGo attempts last =
      (((attempts.filterMap id).find? goodBody).getD
        ((attempts.filterMap id).getLastD last)) := by
  induction attempts generalizing last with
  | nil => simp [fetchRetryGo]
  | cons a rest ih =>
    cases a with
    | none =>
      have hg : goodBody "" = false := by decide
      rw [show List.filterMap id (none :: rest) = List.filterMap id rest from rfl]
      simpa [fetchRetryGo, hg] using ih last
    | some h =>
      rw [show List.filterMap id (some h :: rest) = h :: List.filterMap id rest
            from rfl]
      by_cases hg : goodBody h
      · rw [List.find?_cons_of_pos _ hg]
        simp [fetchRetryGo, hg]
      · rw [List.find?_cons_of_neg _ hg, List.getLastD_cons]
        simpa [fetchRetryGo, hg] using ih h

/-- Claim C1: `_fetch_with_retry` never raises (it is a total function of
the attempt outcomes); if some attempt fetches a body that is non-empty and
not classified as an error page, the first such body is returned; otherwise
the last successfully fetched body is returned — the empty string when every
attempt raised.  An attempt that raises contributes the empty body, which
never passes the `goodBody` test. -/
theorem fetch_with_retry_returns (attempts : List (Option String)) :
    _fetch_with_retry attempts =
      (((attempts.filterMap id).find? goodBody).getD
        ((attempts.filterMap id).getLastD "")) := by
  simpa [_fetch_with_retry] using fetchRetryGo_eq attempts ""

theorem stripTail_eq_self (test : List Char → Bool) (l : List Char)
    (h : hasTailMatch test l = false) : stripTail test l = l := by
  induction l with
  | nil => rfl
  | cons c rest ih =>
    simp only [hasTailMatch, Bool.or_eq_false_iff] at h
    simp [stripTail, h.1, ih h.2]

theorem rstripSlashList_eq_self (l : List Char) (h : l.getLast? ≠ some '/') :
    rstripSlashList l = l := by
  unfold rstripSlashList
  cases hr : l.reverse with
  | nil =>
    have : l = [] := by simpa using congrArg List.reverse hr
    simp [this]
  | cons c cs =>
    have hlast : l.getLast? = some c := by
      rw [← List.head?_reverse, hr]; rfl
    have hc : (c == '/') = false := by
      apply beq_eq_false_iff_ne.mpr
      intro hcc
      exact h (hcc ▸ hlast)
    rw [List.dropWhile_cons, hc]
    simp only [Bool.false_eq_true, if_false]
    rw [← hr, List.reverse_reverse]

/-- Claim C8 (amended): `_category_root` first right-strips slashes, then
strips a trailing `/index_{n}.html` segment, then a trailing `/{n}`,
`/{n}.html` or `/page/{n}` segment, yielding the page-1 root.  It is NOT
idempotent in general — a second application may strip one further trailing
numeric segment (see `category_root_not_idempotent`) — but it is idempotent
on every URL whose normalised result has no trailing slash and no further
strippable suffix. -/
theorem category_root_spec (u : String)
    (h1 : hasTailMatch isIndexTail (_category_root u).toList = false)
    (h2 : hasTailMatch isNumTail (_category_root u).toList = false)
    (h3 : (_category_root u).toList.getLast? ≠ some '/') :
    _category_root u
        = String.mk (stripTail isNumTail (stripTail isIndexTail
            (rstripSlashList u.toList)))
    ∧ _category_root (_category_root u) = _category_root u := by
  refine ⟨rfl, ?_⟩
  show String.mk (stripTail isNumTail (stripTail isIndexTail
      (rstripSlashList (_category_root u).toList))) = _category_root u
  rw [rstripSlashList_eq_self _ h3, stripTail_eq_self _ _ h1,
    stripTail_eq_self _ _ h2, stringMk_toList]

theorem category_root_spec_witness :
    _category_root "https://s.example/list/abc/"
        = String.mk (stripTail isNumTail (stripTail isIndexTail
            (rstripSlashList "https://s.example/list/abc/".toList)))
    ∧ _category_root (_category_root "https://s.example/list/abc/")
        = _category_root "https://s.example/list/abc/" :=
  category_root_spec "https://s.example/list/abc/" (by decide) (by decide)
    (by decide)

/-- Claim C8 counterexample: `_category_root` is not idempotent.  On the
category page URL `https://s.example/list/10/2.html` it yields
`https://s.example/list/10`, and applying it again strips the category id
segment as well, yielding `https://s.example/list`. -/
theorem category_root_not_idempotent :
    _category_root (_category_root "https://s.example/list/10/2.html")
      ≠ _category_root "https://s.example/list/10/2.html" := by decide

/-- Claim C4: `_find_next_page` tries its five queries in the fixed source
order — (a) `ul.pagination#pagelink a.next`, (b) `a[rel=next]`, (c) the link
after the active pagination item, (d) the `>`-text link scoped to the
`pagelink` list and then (e) to any pagination list.  The first query
yielding a truthy href determines the result, resolved against the page URL
after stripping; `none` is returned when no query yields an href; and on a
page exposing both an (a)-style link and a `rel=next` link, the (a)-style
target wins. -/
theorem find_next_page_spec (p : PaginationPage) (url : String) :
    _find_next_page p url
        = (firstPaginationHit p).map (fun h => urljoin url (pyStrip h))
    ∧ (firstPaginationHit p = none → _find_next_page p url = none)
    ∧ (∀ h h2, p.nextInPagelink = some h → h ≠ "" → p.relNext = some h2 →
        _find_next_page p url = some (urljoin url (pyStrip h))) := by
  have hmain : _find_next_page p url
      = (firstPaginationHit p).map (fun h => urljoin url (pyStrip h)) := by
    unfold _find_next_page firstPaginationHit orElseO
    cases truthyOpt p.nextInPagelink <;>
      cases truthyOpt p.relNext <;>
        cases truthyOpt p.afterActive <;>
          cases truthyOpt p.gtInPagelink <;>
            cases truthyOpt p.gtAnyPagination <;> rfl
  refine ⟨hmain, ?_, ?_⟩
  · intro hn
    rw [hmain, hn]; rfl
  · intro h h2 ha hne hb
    simp [_find_next_page, ha, truthyOpt, hne]

theorem find_next_page_spec_witness :
    _find_next_page ⟨some "/list/10/2.html", some "/x.html", none, none, none⟩
        "https://s.example/list/10/"
      = some (urljoin "https://s.example/list/10/" (pyStrip "/list/10/2.html")) :=
  ((find_next_page_spec
      ⟨some "/list/10/2.html", some "/x.html", none, none, none⟩
      "https://s.example/list/10/").2.2 "/list/10/2.html" "/x.html" rfl
    (by decide) rfl)

/-- Claim C3: every entry of the failure queue produced by a retry round was
already in the previous round's queue and its re-attempt again yielded no
parsed paragraphs; hence the queue size is non-increasing from round to
round.  The loop runs at most `retry_rounds` rounds (its fuel), stops early
on an empty queue, and a non-empty residual queue does not change the return
value of `process_book`, which is `1` regardless. -/
theorem retry_phase_spec (succ : Nat → RetryEntry → Bool) (rd rounds : Nat)
    (fails : List RetryEntry) (e : RetryEntry)
    (he : e ∈ retryStep (succ rd) fails) :
    (e ∈ fails ∧ succ rd e = false)
    ∧ (retryStep (succ rd) fails).length ≤ fails.length
    ∧ retry_phase succ rd rounds [] = []
    ∧ (retry_phase succ rd rounds fails).length ≤ fails.length
    ∧ (process_book_retry succ rounds fails).2 = 1 := by
  refine ⟨?_, List.length_filter_le _ _, ?_, ?_, rfl⟩
  · have hm := List.mem_filter.1 he
    exact ⟨hm.1, by simpa using hm.2⟩
  · cases rounds <;> simp [retry_phase]
  · clear he
    induction rounds generalizing rd fails with
    | zero => exact le_rfl
    | succ n ih =>
      by_cases hf : fails.isEmpty
      · simp [retry_phase, hf]
      · simp only [retry_phase, hf, Bool.false_eq_true, if_false]
        exact le_trans (ih (rd + 1) (retryStep (succ rd) fails))
          (List.length_filter_le _ _)

theorem retry_phase_spec_witness :
    ((1, "a.html") ∈ [((1 : Nat), "a.html")]
        ∧ (fun (_ : Nat) (_ : RetryEntry) => false) 0 (1, "a.html") = false)
    ∧ (retryStep ((fun (_ : Nat) (_ : RetryEntry) => false) 0)
          [((1 : Nat), "a.html")]).length ≤ [((1 : Nat), "a.html")].length
    ∧ retry_phase (fun _ _ => false) 0 2 [] = []
    ∧ (retry_phase (fun _ _ => false) 0 2 [((1 : Nat), "a.html")]).length
        ≤ [((1 : Nat), "a.html")].length
    ∧ (process_book_retry (fun _ _ => false) 2 [((1 : Nat), "a.html")]).2 = 1 :=
  retry_phase_spec (fun _ _ => false) 0 2 [((1 : Nat), "a.html")] (1, "a.html")
    (by decide)

theorem numberToc_spec (l : List TocPrelim) (i : Nat) :
    (numberToc i l).map ChapterRef.no = List.range' i l.length
    ∧ (numberToc i l).map ChapterRef.href = l.map TocPrelim.href
    ∧ (numberToc i l).map ChapterRef.site_id = l.map TocPrelim.site_id := by
  induction l generalizing i with
  | nil => exact ⟨rfl, rfl, rfl⟩
  | cons row rest ih =>
    refine ⟨?_, ?_, ?_⟩
    · simp [numberToc, List.range'_succ, (ih (i + 1)).1]
    · simp [numberToc, (ih (i + 1)).2.1]
    · simp [numberToc, (ih (i + 1)).2.2]

/-- Claim C2: the `no` fields of `parse_toc`'s result are exactly
`1, 2, ..., N` (dense, no gaps, no duplicates), assigned in the document
order of the anchors surviving the href/pattern filter (`tocPrelim`); the
`site_id` recorded per anchor is carried through unchanged and never
influences the `no` values or their order, which are fixed by list position
alone. -/
theorem parse_toc_numbering (book_url : String) (anchors : List Anchor) :
    (parse_toc book_url anchors).map ChapterRef.no
        = List.range' 1 ((parse_toc book_url anchors).length)
    ∧ (parse_toc book_url anchors).map ChapterRef.href
        = (tocPrelim book_url anchors).map TocPrelim.href
    ∧ (parse_toc book_url anchors).map ChapterRef.site_id
        = (tocPrelim book_url anchors).map TocPrelim.site_id := by
  have h := numberToc_spec (tocPrelim book_url anchors) 1
  have hlen : (numberToc 1 (tocPrelim book_url anchors)).length
      = (tocPrelim book_url anchors).length := by
    have := congrArg List.length h.1
    simpa using this
  refine ⟨?_, h.2.1, h.2.2⟩
  show List.map ChapterRef.no (numberToc 1 (tocPrelim book_url anchors))
      = List.range' 1 (numberToc 1 (tocPrelim book_url anchors)).length
  rw [hlen]
  exact h.1

theorem isPrefixOfB_append_self (l r : List Char) :
    isPrefixOfB l (l ++ r) = true := by
  induction l with
  | nil => rfl
  | cons c cs ih => simp [isPrefixOfB, ih]

theorem endsWithTxt_append (s : String) : endsWithTxt (s ++ ".txt") = true := by
  unfold endsWithTxt
  rw [show (s ++ ".txt").toList = s.toList ++ ".txt".toList from rfl]
  rw [List.reverse_append]
  exact isPrefixOfB_append_self _ _

theorem natDigitsAux_not_dash (fuel : Nat) :
    ∀ (n : Nat) (acc : List Char), (∀ c ∈ acc, (c == '-') = false) →
      ∀ c ∈ natDigitsAux fuel n acc, (c == '-') = false := by
  induction fuel with
  | zero => exact fun n acc hacc => hacc
  | succ f ih =>
    intro n acc hacc
    have hd : (Nat.digitChar (n % 10) == '-') = false := by
      have h10 : n % 10 < 10 := Nat.mod_lt _ (by decide)
      revert h10
      generalize n % 10 = m
      intro h10
      interval_cases m <;> decide
    have hacc2 : ∀ c ∈ Nat.digitChar (n % 10) :: acc, (c == '-') = false := by
      intro c hc
      rcases List.mem_cons.1 hc with rfl | hc
      · exact hd
      · exact hacc c hc
    simp only [natDigitsAux]
    by_cases hn : n < 10
    · simpa [hn] using hacc2
    · simpa [hn] using ih (n / 10) (Nat.digitChar (n % 10) :: acc) hacc2

theorem pad4_not_dash (n : Nat) : ∀ c ∈ (pad4 n).toList, (c == '-') = false := by
  intro c hc
  rw [show (pad4 n).toList
      = List.replicate (4 - (natRepr n).length) '0' ++ natDigitsAux (n + 1) n []
    from rfl] at hc
  rcases List.mem_append.1 hc with hc | hc
  · have := List.eq_of_mem_replicate hc
    subst this; decide
  · exact natDigitsAux_not_dash (n + 1) n [] (by simp) c hc

theorem takeWhile_append_of_all (p : Char → Bool) (l1 l2 : List Char)
    (h : ∀ c ∈ l1, p c = true) :
    (l1 ++ l2).takeWhile p = l1 ++ l2.takeWhile p := by
  induction l1 with
  | nil => rfl
  | cons c cs ih =>
    have hc := h c (List.mem_cons_self c cs)
    simp [List.takeWhile_cons, hc,
      ih (fun d hd => h d (List.mem_cons_of_mem c hd))]

theorem firstDashField_chapterFileName (n : Nat) :
    firstDashField (chapterFileName n) = pad4 n := by
  unfold firstDashField chapterFileName
  have h1 : (pad4 n ++ "-" ++ pad4 n ++ ".txt").toList
      = (pad4 n).toList ++ ('-' :: ((pad4 n).toList ++ ".txt".toList)) := by
    show (pad4 n).toList ++ "-".toList ++ (pad4 n).toList ++ ".txt".toList
        = (pad4 n).toList ++ ('-' :: ((pad4 n).toList ++ ".txt".toList))
    simp
  rw [h1, takeWhile_append_of_all _ _ _ ?pa]
  case pa =>
    intro c hc
    have := pad4_not_dash n c hc
    simp only [bne, this, Bool.not_false]
  rw [List.takeWhile_cons]
  simp only [show (('-' : Char) != '-') = false from rfl, Bool.false_eq_true,
    if_false, List.append_nil]
  exact stringMk_toList _

/-- Claim C5 (amended): with the overwrite flag unset, `process_book`
submits exactly the chapters whose zero-padded sequence prefix has no
existing `*.txt` file larger than 10 bytes in the chapters directory;
consequently, a second run against an unchanged TOC after a fully successful
first run in which every written chapter file exceeds 10 bytes submits no
chapter fetches (and hence writes no chapter files).  Without the size
proviso the consequence fails: see `process_book_second_run_refetches`. -/
theorem process_book_skip_spec (files : List ChapFile) (toc : List ChapterRef)
    (parasOf : ChapterRef → List String)
    (hall : ∀ ch ∈ toc, ch.no ≠ 0 ∧ parasOf ch ≠ []
        ∧ 10 < (saveContent (parasOf ch)).utf8ByteSize) :
    submittedChapters false files toc
        = toc.filter (fun ch =>
            !(existingPrefixSet files).contains (pad4 ch.no))
    ∧ submittedChapters false (runFiles toc parasOf) toc = [] := by
  constructor
  · rfl
  · rw [submittedChapters, List.filter_eq_nil_iff]
    intro ch hch
    rcases hall ch hch with ⟨h1, h2, h3⟩
    have hcond : (decide (ch.no ≠ 0) && decide (parasOf ch ≠ [])) = true := by
      simp [h1, h2]
    have hfmem : (⟨chapterFileName ch.no,
        (saveContent (parasOf ch)).utf8ByteSize⟩ : ChapFile)
        ∈ runFiles toc parasOf := by
      unfold runFiles
      exact List.mem_map.2 ⟨ch, List.mem_filter.2 ⟨hch, hcond⟩, rfl⟩
    have hpass : pad4 ch.no ∈ existingPrefixSet (runFiles toc parasOf) := by
      unfold existingPrefixSet
      refine List.mem_map.2 ⟨_, List.mem_filter.2 ⟨hfmem, ?_⟩,
        firstDashField_chapterFileName ch.no⟩
      have he : endsWithTxt (chapterFileName ch.no) = true := by
        rw [show chapterFileName ch.no
            = (pad4 ch.no ++ "-" ++ pad4 ch.no) ++ ".txt" from rfl]
        exact endsWithTxt_append _
      simp [he, h3]
    simp only [Bool.false_or, Bool.not_eq_true', Bool.not_eq_false]
    simpa [List.contains] using (List.elem_iff).2 hpass

theorem process_book_skip_spec_witness :
    (submittedChapters false [] [⟨1, "第1章", "c1.html", 0⟩]
        = [(⟨1, "第1章", "c1.html", 0⟩ : ChapterRef)].filter
            (fun ch => !(existingPrefixSet []).contains (pad4 ch.no)))
    ∧ submittedChapters false
        (runFiles [⟨1, "第1章", "c1.html", 0⟩] (fun _ => ["abcdefghijkl"]))
        [⟨1, "第1章", "c1.html", 0⟩] = [] :=
  process_book_skip_spec [] [⟨1, "第1章", "c1.html", 0⟩]
    (fun _ => ["abcdefghijkl"]) (by decide)

/-- Claim C5 counterexample: after a fully successful first run (the single
chapter fetched, parsed to the non-empty paragraph list `["ab"]`, and saved),
the unchanged TOC still submits that chapter again on a second run without
the overwrite flag, because the written file holds only 2 bytes and the skip
test requires more than 10. -/
theorem process_book_second_run_refetches :
    (∀ ch ∈ [(⟨1, "第1章", "c1.html", 0⟩ : ChapterRef)],
        ch.no ≠ 0 ∧ (fun (_ : ChapterRef) => ["ab"]) ch ≠ [])
    ∧ submittedChapters false
        (runFiles [⟨1, "第1章", "c1.html", 0⟩] (fun _ => ["ab"]))
        [⟨1, "第1章", "c1.html", 0⟩] ≠ [] := by decide

theorem slugChars_length (k : Nat) : ∀ num, (slugChars num k).length = k := by
  induction k with
  | zero => intro num; rfl
  | succ n ih => intro num; simp [slugChars, ih]

theorem getD_mem_of_lt (l : List Char) (i : Nat) (d : Char) (h : i < l.length) :
    l.getD i d ∈ l := by
  induction l generalizing i with
  | nil => simp at h
  | cons c cs ih =>
    cases i with
    | zero => simp [List.getD]
    | succ j =>
      have hj : j < cs.length := by simpa using h
      simpa [List.getD] using Or.inr (ih j hj)

theorem slugChars_mem_alphabet (k : Nat) :
    ∀ num, ∀ c ∈ slugChars num k, c ∈ slugAlphabet := by
  induction k with
  | zero => intro num c hc; simp [slugChars] at hc
  | succ n ih =>
    intro num c hc
    simp only [slugChars] at hc
    rcases List.mem_cons.1 hc with rfl | hc
    · exact getD_mem_of_lt _ _ _ (Nat.mod_lt _ (by decide))
    · exact ih _ c hc

theorem stable_slug_length (md5f : String → Nat) (seed : String) :
    (_stable_slug md5f seed 5).length = 5 :=
  slugChars_length 5 (md5f seed)

theorem stable_slug_ne_empty (md5f : String → Nat) (seed : String) :
    _stable_slug md5f seed 5 ≠ "" := by
  intro h
  have h5 := stable_slug_length md5f seed
  rw [h] at h5
  exact absurd h5 (by decide)

/-- Claim C6 (amended): `_stable_slug` is a pure function of its seed (and
of the md5 collaborator): repeated calls agree, and every output has
exactly five characters drawn from the fixed alphabet `a-z0-9`.  In
`parse_book_meta` the slug is `_stable_slug` of `slugSeed`, where the seed
is the site-native book id extracted from the URL; when the URL yields
none, the id extracted from the page's `og:novel:read_url` metadata; and
only when both are absent, `host + "/" + title`.  (The claim's direct
fallback from the URL to `host + "/" + title` is refuted by
`slug_seed_counterexample`.) -/
theorem stable_slug_spec (md5f : String → Nat) (cfg : CatCfg) (p : MetaPage)
    (book_url category_hint now seed : String) (c : Char)
    (hc : c ∈ (_stable_slug md5f seed 5).toList) :
    (_stable_slug md5f seed 5).length = 5
    ∧ c ∈ slugAlphabet
    ∧ (∀ s1 s2 : String, s1 = s2
        → _stable_slug md5f s1 5 = _stable_slug md5f s2 5)
    ∧ (parse_book_meta md5f cfg p book_url category_hint now).slug
        = _stable_slug md5f (slugSeed p book_url) 5
    ∧ metaSiteBookId p book_url
        = (if _extract_site_book_id book_url = "" then
            (if _first_txt p.og_read_url ≠ "" then
              _extract_site_book_id (_first_txt p.og_read_url) else "")
          else _extract_site_book_id book_url)
    ∧ slugSeed p book_url
        = (if metaSiteBookId p book_url = "" then
            urlNetloc book_url ++ "/" ++ metaTitle p
          else metaSiteBookId p book_url) := by
  refine ⟨stable_slug_length md5f seed,
    slugChars_mem_alphabet 5 (md5f seed) c hc, ?_, rfl, ?_, ?_⟩
  · intro s1 s2 h; rw [h]
  · by_cases h : _extract_site_book_id book_url = "" <;>
      simp [metaSiteBookId, h]
  · by_cases h : metaSiteBookId p book_url = "" <;> simp [slugSeed, h]

theorem stable_slug_spec_witness :
    (_stable_slug String.length "55" 5).length = 5
    ∧ 'c' ∈ slugAlphabet
    ∧ _stable_slug String.length "a" 5 = _stable_slug String.length "a" 5 :=
  ⟨(stable_slug_spec String.length cfgAny emptyMetaPage "" "" "" "55" 'c'
      (by decide)).1,
   (stable_slug_spec String.length cfgAny emptyMetaPage "" "" "" "55" 'c'
      (by decide)).2.1,
   (stable_slug_spec String.length cfgAny emptyMetaPage "" "" "" "55" 'c'
      (by decide)).2.2.1 "a" "a" rfl⟩

/-- Claim C6 counterexample: for the book URL `https://x.test/novel/abc`
(no site-native id) and a page whose `og:novel:read_url` is
`https://x.test/book/123/`, `parse_book_meta` seeds the slug with the
metadata id `123`, not with `host + "/" + title` as the claim states: with
the md5 collaborator instantiated to `String.length`, the slug equals
`_stable_slug` of `"123"` and differs from `_stable_slug` of
`"x.test/T"`. -/
theorem slug_seed_counterexample :
    _extract_site_book_id "https://x.test/novel/abc" = ""
    ∧ (parse_book_meta String.length cfgAny pageSeedC6
        "https://x.test/novel/abc" "" "2024-01-01T00:00:00Z").slug
      = _stable_slug String.length "123" 5
    ∧ (parse_book_meta String.length cfgAny pageSeedC6
        "https://x.test/novel/abc" "" "2024-01-01T00:00:00Z").slug
      ≠ _stable_slug String.length
          (urlNetloc "https://x.test/novel/abc" ++ "/" ++ metaTitle pageSeedC6)
          5 := by
  refine ⟨by decide, by decide, by decide⟩

/-- Claim C10: for every input page (including a page where every query
missed) and every book URL, the record returned by `parse_book_meta` has a
slug of exactly five characters (hence non-empty), a non-empty title
(falling back to the slug), and a non-empty id (falling back through title,
then site-native book id, then slug). -/
theorem meta_identity_nonempty (md5f : String → Nat) (cfg : CatCfg)
    (p : MetaPage) (book_url category_hint now : String) :
    (parse_book_meta md5f cfg p book_url category_hint now).slug.length = 5
    ∧ (parse_book_meta md5f cfg p book_url category_hint now).slug ≠ ""
    ∧ (parse_book_meta md5f cfg p book_url category_hint now).title ≠ ""
    ∧ (parse_book_meta md5f cfg p book_url category_hint now).id ≠ "" := by
  refine ⟨stable_slug_length md5f (slugSeed p book_url),
    stable_slug_ne_empty md5f (slugSeed p book_url), ?_, ?_⟩
  · show (if metaTitle p = "" then _stable_slug md5f (slugSeed p book_url) 5
        else metaTitle p) ≠ ""
    by_cases ht : metaTitle p = ""
    · simpa [ht] using stable_slug_ne_empty md5f (slugSeed p book_url)
    · simp [ht]
  · show firstTruthyStr [metaTitle p, metaSiteBookId p book_url,
        _stable_slug md5f (slugSeed p book_url) 5] ≠ ""
    by_cases h1 : metaTitle p = ""
    · by_cases h2 : metaSiteBookId p book_url = ""
      · have h3 := stable_slug_ne_empty md5f (slugSeed p book_url)
        have hb1 : (metaTitle p != "") = false := by simp [h1]
        have hb2 : (metaSiteBookId p book_url != "") = false := by simp [h2]
        have hb3 : (_stable_slug md5f (slugSeed p book_url) 5 != "") = true := by
          simpa using h3
        simp only [firstTruthyStr, List.find?, hb1, hb2, hb3, Option.getD_some]
        exact h3
      · have hb1 : (metaTitle p != "") = false := by simp [h1]
        have hb2 : (metaSiteBookId p book_url != "") = true := by simpa using h2
        simp only [firstTruthyStr, List.find?, hb1, hb2, Option.getD_some]
        exact h2
    · have hb1 : (metaTitle p != "") = true := by simpa using h1
      simp only [firstTruthyStr, List.find?, hb1, Option.getD_some]
      exact h1

theorem maxTextStep_ge (txt : String) (o : Option String) :
    txt.length ≤ (maxTextStep txt o).length := by
  cases o with
  | none => exact le_rfl
  | some v =>
    by_cases hv : (v != "" && decide (txt.length < v.length)) = true
    · simp only [maxTextStep, hv, if_true]
      have hv2 : txt.length < v.length := by
        have h := hv
        simp only [Bool.and_eq_true, decide_eq_true_eq] at h
        exact h.2
      exact le_of_lt hv2
    · simp only [maxTextStep, hv, Bool.false_eq_true, if_false]
      exact le_rfl

theorem maxTextStep_elem (txt s : String) :
    s.length ≤ (maxTextStep txt (some s)).length := by
  by_cases hv : (s != "" && decide (txt.length < s.length)) = true
  · simp [maxTextStep, hv]
  · simp only [maxTextStep, hv, Bool.false_eq_true, if_false]
    rcases Bool.and_eq_false_iff.1 (Bool.eq_false_iff.2 hv) with h | h
    · have : s = "" := by simpa using h
      simp [this]
    · have := of_decide_eq_false h
      omega

theorem foldl_maxTextStep_ge (l : List (Option String)) (init : String) :
    init.length ≤ (l.foldl maxTextStep init).length := by
  induction l generalizing init with
  | nil => exact le_rfl
  | cons o rest ih =>
    exact le_trans (maxTextStep_ge init o) (ih (maxTextStep init o))

theorem foldl_maxTextStep_bound (l : List (Option String)) (s : String)
    (h : some s ∈ l) :
    ∀ init, s.length ≤ (l.foldl maxTextStep init).length := by
  induction l with
  | nil => simp at h
  | cons o rest ih =>
    intro init
    rcases List.mem_cons.1 h with rfl | hm
    · exact le_trans (maxTextStep_elem init s) (foldl_maxTextStep_ge rest _)
    · exact ih hm (maxTextStep init o)

theorem fallbackText_ge (p : ChapterPage) (s : String)
    (h : some s ∈ p.containerTexts) : s.length ≤ (fallbackText p).length := by
  have hb := foldl_maxTextStep_bound p.containerTexts s h ""
  show s.length ≤
    (if p.containerTexts.foldl maxTextStep "" = "" then p.bodyText.getD ""
     else p.containerTexts.foldl maxTextStep "").length
  by_cases ht : p.containerTexts.foldl maxTextStep "" = ""
  · rw [ht] at hb
    have h0 : s.length = 0 := Nat.le_zero.1 hb
    rw [if_pos ht, h0]
    exact Nat.zero_le _
  · rw [if_neg ht]
    exact hb

theorem mem_pushPara (acc : List String) (ln x : String)
    (h : x ∈ pushPara acc ln) : x = ln ∨ x ∈ acc := by
  unfold pushPara at h
  by_cases hc : ln = "" ∧ (acc = [] ∨ acc.headD "" = "")
  · rw [if_pos hc] at h
    exact Or.inr h
  · rw [if_neg hc] at h
    rcases List.mem_cons.1 h with rfl | h
    · exact Or.inl rfl
    · exact Or.inr h

theorem mem_foldl_pushPara (lines : List String) (x : String) :
    ∀ acc, x ∈ lines.foldl pushPara acc → x ∈ lines ∨ x ∈ acc := by
  induction lines with
  | nil => exact fun acc h => Or.inr h
  | cons ln rest ih =>
    intro acc h
    rcases ih (pushPara acc ln) h with h | h
    · exact Or.inl (List.mem_cons_of_mem _ h)
    · rcases mem_pushPara acc ln x h with rfl | h
      · exact Or.inl (List.mem_cons_self _ _)
      · exact Or.inr h

theorem mem_collapseBlanks (lines : List String) (x : String)
    (h : x ∈ collapseBlanks lines) : x ∈ lines := by
  unfold collapseBlanks at h
  rw [List.mem_reverse] at h
  rcases mem_foldl_pushPara lines x [] h with h | h
  · exact h
  · simp at h

theorem mem_stripBlankEnds (l : List String) (x : String)
    (h : x ∈ stripBlankEnds l) : x ∈ l := by
  unfold stripBlankEnds at h
  rw [List.mem_reverse] at h
  have hx : x ∈ (l.dropWhile (fun s => s == "")).reverse :=
    (List.dropWhile_suffix _).sublist.subset h
  rw [List.mem_reverse] at hx
  exact (List.dropWhile_suffix _).sublist.subset hx

/-- Claim C7 (amended): whenever the concatenated text of the structured
extraction is shorter than 80 characters, the fallback full-text path
determines the result: the normalized-whitespace text of the candidate
container with the most characters (every matched container's text is
bounded by it) is re-split on newlines or sentence-ending punctuation and
re-filtered with the same boilerplate filter, so every returned line is
non-empty and non-boilerplate.  The returned result is NOT guaranteed to be
at least as long as the discarded structured result: the merged
normalize-space text can be swallowed whole by the boilerplate filter (see
`content_gate_shrinks`). -/
theorem content_quality_gate (p : ChapterPage)
    (hlt : (String.join (structuredParas p)).length < 80) :
    parse_chapter_content p = fallbackParas p
    ∧ (∀ ln ∈ parse_chapter_content p, ln ≠ "" ∧ _noise_line ln = false)
    ∧ (∀ s : String, some s ∈ p.containerTexts →
        s.length ≤ (fallbackText p).length) := by
  have hmain : parse_chapter_content p = fallbackParas p := by
    unfold parse_chapter_content
    simp [hlt]
  refine ⟨hmain, ?_, fun s hs => fallbackText_ge p s hs⟩
  intro ln hln
  rw [hmain] at hln
  unfold fallbackParas at hln
  have h1 := mem_collapseBlanks _ _ (mem_stripBlankEnds _ _ hln)
  have h2 := (List.mem_filter.1 h1).2
  have h3 : (ln != "") = true ∧ (!_noise_line ln) = true := by
    simpa [Bool.and_eq_true] using h2
  constructor
  · simpa using h3.1
  · simpa using h3.2

theorem content_quality_gate_witness :
    (parse_chapter_content pageC7w = fallbackParas pageC7w)
    ∧ ("hello world." ≠ "" ∧ _noise_line "hello world." = false)
    ∧ ("hello world. ok".length ≤ (fallbackText pageC7w).length) :=
  ⟨(content_quality_gate pageC7w (by decide)).1,
   (content_quality_gate pageC7w (by decide)).2.1 "hello world." (by decide),
   (content_quality_gate pageC7w (by decide)).2.2 "hello world. ok"
     (by decide)⟩

/-- Claim C7 counterexample: on `pageC7c` the structured extraction keeps
the 3-character line `AAA` (the bookmark-boilerplate line is filtered), so
the 80-character gate fires; the fallback path then merges both lines into
the single normalize-space chunk `AAA 加入书签BBB`, which the boilerplate
filter drops whole, so the returned result (empty, length 0) is strictly
shorter than the discarded structured result — refuting the claim that it
is at least as long. -/
theorem content_gate_shrinks :
    (String.join (structuredParas pageC7c)).length < 80
    ∧ (String.join (parse_chapter_content pageC7c)).length
        < (String.join (structuredParas pageC7c)).length := by
  refine ⟨by decide, by decide⟩

/-- On total extraction failure (an all-miss page, an empty anchor list,
the empty chapter page) the extractors return best-effort defaults: empty
author, cover, intro and status, zero words, empty tags, the current time
as update time, an empty site id, the slug standing in for the missing
title, the empty chapter list, and the empty paragraph list.  (This is the
default-value half of the extractor contract; the never-raise half is
refuted at `extractor_raises_on_bracket_url`.) -/
theorem extractor_defaults (md5f : String → Nat) (cfg : CatCfg)
    (category_hint now u : String) :
    (parse_book_meta md5f cfg emptyMetaPage "" category_hint now).author = ""
    ∧ (parse_book_meta md5f cfg emptyMetaPage "" category_hint now).cover = ""
    ∧ (parse_book_meta md5f cfg emptyMetaPage "" category_hint now).intro = ""
    ∧ (parse_book_meta md5f cfg emptyMetaPage "" category_hint now).status = ""
    ∧ (parse_book_meta md5f cfg emptyMetaPage "" category_hint now).words = 0
    ∧ (parse_book_meta md5f cfg emptyMetaPage "" category_hint now).tags = []
    ∧ (parse_book_meta md5f cfg emptyMetaPage "" category_hint
        now).update_time = now
    ∧ (parse_book_meta md5f cfg emptyMetaPage "" category_hint
        now).source_site_book_id = ""
    ∧ (parse_book_meta md5f cfg emptyMetaPage "" category_hint now).title
        = (parse_book_meta md5f cfg emptyMetaPage "" category_hint now).slug
    ∧ parse_toc u [] = []
    ∧ parse_chapter_content emptyChapterPage = [] :=
  ⟨rfl, rfl, rfl, rfl, rfl, rfl, rfl, rfl, rfl, rfl, rfl⟩

theorem meta_identity_nonempty_witness :
    (parse_book_meta String.length cfgAny emptyMetaPage "" "" "NOW").slug.length
        = 5
    ∧ (parse_book_meta String.length cfgAny emptyMetaPage "" "" "NOW").slug ≠ ""
    ∧ (parse_book_meta String.length cfgAny emptyMetaPage "" "" "NOW").title ≠ ""
    ∧ (parse_book_meta String.length cfgAny emptyMetaPage "" "" "NOW").id ≠ "" :=
  meta_identity_nonempty String.length cfgAny emptyMetaPage "" "" "NOW"

theorem urljoin_empty_base (rel : String) : urljoin "" rel = rel := by
  unfold urljoin
  by_cases h0 : rel = ""
  · simp [h0]
  · rw [if_neg h0]
    by_cases h1 : (findSubAux "://".toList rel.toList 0).isSome = true
    · rw [if_pos h1]
    · rw [if_neg h1]
      by_cases h2 : isPrefixOfB "//".toList rel.toList = true
      · rw [if_pos h2]
        show urlSchemePart "" ++ rel = rel
        rfl
      · rw [if_neg h2]
        by_cases h3 : isPrefixOfB "/".toList rel.toList = true
        · rw [if_pos h3]
          show urlOriginPart "" ++ rel = rel
          rfl
        · rw [if_neg h3]
          show urlDirPart "" ++ rel = rel
          rfl

theorem urljoinE_ok_eq (base rel u : String)
    (h : urljoinE base rel = Except.ok u) : u = urljoin base rel := by
  unfold urljoinE at h
  by_cases h0 : base = ""
  · rw [if_pos h0] at h
    have : rel = u := by simpa using h
    rw [← this, h0, urljoin_empty_base]
  · rw [if_neg h0] at h
    by_cases h1 : rel = ""
    · rw [if_pos h1] at h
      have : base = u := by simpa using h
      rw [← this, h1]
      show base = urljoin base ""
      simp [urljoin]
    · rw [if_neg h1] at h
      by_cases h2 : (netlocBracketsOk base && netlocBracketsOk rel) = true
      · rw [if_pos h2] at h
        have : urljoin base rel = u := by simpa using h
        exact this.symm
      · rw [if_neg h2] at h
        exact absurd h (by simp)

theorem tocPrelimE_agrees (book_url : String) (anchors : List Anchor) :
    tocPrelimE book_url anchors = Except.ok (tocPrelim book_url anchors)
    ∨ ∃ e, tocPrelimE book_url anchors = Except.error e := by
  induction anchors with
  | nil => exact Or.inl rfl
  | cons a rest ih =>
    by_cases hb : _is_bad_href (anchorRawHref a) = true
    · rcases ih with h | ⟨e, h⟩
      · exact Or.inl
          (by simp [tocPrelimE, hb, h, tocPrelim, List.filterMap_cons])
      · exact Or.inr ⟨e, by simp [tocPrelimE, hb, h]⟩
    · have hbF : _is_bad_href (anchorRawHref a) = false := by simpa using hb
      cases hj : urljoinE book_url (anchorRawHref a) with
      | error e => exact Or.inr ⟨e, by simp [tocPrelimE, hbF, hj]⟩
      | ok u =>
        have hu : u = urljoin book_url (anchorRawHref a) :=
          urljoinE_ok_eq book_url (anchorRawHref a) u hj
        subst hu
        rcases ih with h | ⟨e, h⟩
        · refine Or.inl ?_
          by_cases hc : _looks_like_chapter
              (urljoin book_url (anchorRawHref a))
              (_clean_text (a.text.getD "")) = true
          · simp [tocPrelimE, hbF, hj, h, tocPrelim, List.filterMap_cons, hc]
          · simp [tocPrelimE, hbF, hj, h, tocPrelim, List.filterMap_cons, hc]
        · exact Or.inr ⟨e, by simp [tocPrelimE, hbF, hj, h]⟩

theorem metaCoverE_agrees (p : MetaPage) (book_url : String) :
    metaCoverE p book_url = Except.ok (metaCover p book_url)
    ∨ ∃ e, metaCoverE p book_url = Except.error e := by
  unfold metaCoverE metaCover
  by_cases hcond : (firstTruthyStr [_first p.og_image, _first p.cover_info,
      _first p.cover_book, _first p.cover_info2] != "" &&
      !(startsWithStr (firstTruthyStr [_first p.og_image, _first p.cover_info,
          _first p.cover_book, _first p.cover_info2]) "http://" ||
        startsWithStr (firstTruthyStr [_first p.og_image, _first p.cover_info,
          _first p.cover_book, _first p.cover_info2]) "https://" ||
        startsWithStr (firstTruthyStr [_first p.og_image, _first p.cover_info,
          _first p.cover_book, _first p.cover_info2]) "/")) = true
  · rw [if_pos hcond, if_pos hcond]
    cases hj : urljoinE book_url (firstTruthyStr [_first p.og_image,
        _first p.cover_info, _first p.cover_book, _first p.cover_info2]) with
    | error e => exact Or.inr ⟨e, rfl⟩
    | ok u =>
      exact Or.inl (by rw [urljoinE_ok_eq _ _ _ hj])
  · rw [if_neg hcond, if_neg hcond]
    exact Or.inl rfl

/-- Claim C9 (code bug): the never-raise contract is the evident intent of
the extractors — every selector lookup is wrapped (`_first`), numeric and
date conversions sit in try/except, and the sibling crawler even guards its
own `urlparse` call — but `parse_toc` (source line 252) and the cover path
of `parse_book_meta` (source line 105) call `urllib.parse.urljoin`
unguarded, and `urljoin` raises `ValueError("Invalid IPv6 URL")` on a
bracket-malformed netloc.  A TOC anchor with `href="//[x"` passes
`_is_bad_href` and makes `parse_toc` raise; a page with
`og:image="foo://["` passes the scheme/absolute-path guard and makes
`parse_book_meta` raise.  Wherever no join raises, the fallible embedding
agrees with the total one used by the other claims, and
`parse_chapter_content` performs no joins, so the totality and
default-value behaviour proved in `extractor_defaults` is intact on the
non-raising inputs. -/
theorem extractor_raises_on_bracket_url :
    parse_tocE "https://x.test/book/9/"
        [⟨some "//[x", none, none, some "第1章"⟩]
      = Except.error "Invalid IPv6 URL"
    ∧ metaCoverE pageC9 "https://x.test/book/9/"
      = Except.error "Invalid IPv6 URL"
    ∧ (∀ book_url anchors,
        tocPrelimE book_url anchors = Except.ok (tocPrelim book_url anchors)
        ∨ ∃ e, tocPrelimE book_url anchors = Except.error e)
    ∧ (∀ p book_url,
        metaCoverE p book_url = Except.ok (metaCover p book_url)
        ∨ ∃ e, metaCoverE p book_url = Except.error e) :=
  ⟨rfl, rfl, tocPrelimE_agrees, metaCoverE_agrees⟩
